import Mathlib

/-!
# Account authentication handlers (backend/internal/app/handlers/auth.go)

A shallow embedding of the six handlers of `AuthHandler` (Register, Login, Session, Logout,
ChangeUsername, ChangePassword) as pure functions over an explicit account table and an
explicit response writer.

* The response writer follows net/http: the first status written wins, a body write
  without a status implies 200, and `http.Error` is "write the status, then the message".
* `len(s)` of Go is the number of bytes of the string, here `String.utf8ByteSize`.
* bcrypt, jwt, the session secret and `verifyClientBaid` are not defined in auth.go; they are
  parameters (`Deps`).
* The `database` package is not among the sources; it is modelled from the specification as
  a table of rows, with an explicit switch for each operation that makes it answer with an
  error.
-/

namespace Taiko

/-! ## package model -/

/-- A row of the account table (model.AuthUser). -/
structure AuthUser where
  Username : String
  Baid : Nat
  PasswordHash : String
deriving DecidableEq, Repr, Inhabited

/-- The projection of an account sent to clients (model.SimpleAuthUser). -/
structure SimpleAuthUser where
  Username : String
  Baid : Nat
deriving DecidableEq, Repr

/-- The JSON body of the two PATCH handlers (model.UpdateAuthUser), with the three fields
the handlers read. -/
structure UpdateAuthUser where
  Username : String
  CurrentPassword : String
  NewPassword : String
deriving DecidableEq, Repr

/-! ## net/http -/

def StatusOK : Nat := 200
def StatusBadRequest : Nat := 400
def StatusUnauthorized : Nat := 401
def StatusConflict : Nat := 409
def StatusInternalServerError : Nat := 500

inductive SameSite where
  | DefaultMode
  | LaxMode
  | StrictMode
  | NoneMode
deriving DecidableEq, Repr

/-- An http.Cookie with the fields the handlers set; Expires is in Unix seconds. -/
structure Cookie where
  Name : String
  Value : String
  Expires : Int
  HttpOnly : Bool
  Secure : Bool
  SameSite : SameSite
  Path : String
deriving DecidableEq, Repr

/-- One write to the response body: the message of an http.Error, or an encoded
SimpleAuthUser. -/
inductive Chunk where
  | text (msg : String)
  | json (u : SimpleAuthUser)
deriving DecidableEq, Repr

/-- The http.ResponseWriter as a value: the status line once written, the Set-Cookie headers
sent with it, and the body written so far. -/
structure ResponseWriter where
  status : Option Nat := none
  cookies : List Cookie := []
  body : List Chunk := []
deriving DecidableEq, Repr

/-- The status the client receives: 200 when the handler returns without writing one. -/
def ResponseWriter.code (w : ResponseWriter) : Nat :=
  w.status.getD StatusOK

/-- The call w.WriteHeader(code): ignored when a status was already written. -/
def ResponseWriter.WriteHeader (w : ResponseWriter) (code : Nat) : ResponseWriter :=
  match w.status with
  | some _ => w
  | none => { w with status := some code }

/-- The call w.Write: writes status 200 first when none was written. -/
def ResponseWriter.Write (w : ResponseWriter) (c : Chunk) : ResponseWriter :=
  { (w.WriteHeader StatusOK) with body := w.body ++ [c] }

/-- The function http.Error(w, msg, code). -/
def httpError (w : ResponseWriter) (msg : String) (code : Nat) : ResponseWriter :=
  (w.WriteHeader code).Write (Chunk.text msg)

/-- The function http.SetCookie(w, cookie): a header added after the status line has been
written is not sent. -/
def SetCookie (w : ResponseWriter) (c : Cookie) : ResponseWriter :=
  match w.status with
  | some _ => w
  | none => { w with cookies := w.cookies ++ [c] }

/-- The call json.NewEncoder(w).Encode(simpleUser). -/
def jsonEncode (w : ResponseWriter) (u : SimpleAuthUser) : ResponseWriter :=
  w.Write (Chunk.json u)

/-- What a handler reads of an http.Request: the value of the cookie named Authorization when
there is one, the parsed form (none when ParseForm fails; a key without a value reads as
the empty string), and the JSON body decoded as UpdateAuthUser (none when decoding fails). -/
structure Request where
  cookie : Option String := none
  Form : Option (String → String) := none
  Body : Option UpdateAuthUser := none

/-! ## float64 -/

/-- The value of float64(n) for a natural number n: n rounded to 53 significant bits, ties
to even. -/
def float64OfNat (n : Nat) : Nat :=
  if n < 2 ^ 53 then n
  else
    let e := Nat.log2 n - 52
    let q := n / 2 ^ e
    let r := n % 2 ^ e
    if 2 * r < 2 ^ e then q * 2 ^ e
    else if 2 ^ e < 2 * r then (q + 1) * 2 ^ e
    else if q % 2 = 0 then q * 2 ^ e
    else (q + 1) * 2 ^ e

/-- The value of float64(i) for an integer i; finite float64 values are given by the rational
number they denote. -/
def float64OfInt (i : Int) : ℚ :=
  if 0 ≤ i then ((float64OfNat i.toNat : Nat) : ℚ) else -((float64OfNat (-i).toNat : Nat) : ℚ)

/-- The function math.Round: nearest integer, halves away from zero. -/
def mathRound (x : ℚ) : Int :=
  if 0 ≤ x then ⌊x + 1 / 2⌋ else -⌊-x + 1 / 2⌋

/-! ## jwt -/

/-- The families of signing methods of the jwt library. -/
inductive SigningMethod where
  | HMAC
  | RSA
  | ECDSA
  | None
deriving DecidableEq, Repr

/-- The jwt.MapClaims of a parsed token: the float64 under "sub" and under "exp"; none when
the key is absent or holds something that is not a float64. -/
structure MapClaims where
  sub : Option ℚ
  exp : Option ℚ

/-- The jwt.Token returned by jwt.Parse: its claims when they are a MapClaims, and Valid. -/
structure Token where
  Claims : Option MapClaims
  Valid : Bool

/-! ## the environment of a request -/

/-- Which database operations answer with an error during this request. -/
structure Faults where
  GetBaidFromAccessCode : Bool := false
  IsAuthUserUnique : Bool := false
  InsertAuthUser : Bool := false
  GetAuthUserByUsername : Bool := false
  GetUsernameByBaid : Bool := false
  GetPasswordHashByBaid : Bool := false
  ChangeUsername : Bool := false
  ChangePassword : Bool := false
deriving DecidableEq, Repr

/-- What a request sees of the outside: the successive readings of time.Now() in Unix
seconds, the randomness bcrypt draws, and the database faults. -/
structure Env where
  clock : Nat → Int
  rand : Nat
  faults : Faults

/-- The functions the handlers call that auth.go does not define. -/
structure Deps where
  /-- The value pkg.ConfigVars.SessionSecret. -/
  SessionSecret : String
  /-- The function bcrypt.GenerateFromPassword at the default cost, given the randomness it
  draws; none is an error. -/
  GenerateFromPassword : Nat → String → Option String
  /-- The function bcrypt.CompareHashAndPassword (hash, password): true is a nil error. -/
  CompareHashAndPassword : String → String → Bool
  /-- HS256 token.SignedString(key) for the claims sub, exp; none is an error. -/
  SignedString : Nat → Int → String → Option String
  /-- The function jwt.Parse (token string, key function) at a reading of the clock; none is
  an error. -/
  Parse : String → (SigningMethod → Option String) → Int → Option Token
  /-- The helper verifyClientBaid(w, r): the writer it leaves and the baid, none for an
  error. -/
  verifyClientBaid : ResponseWriter → Request → ResponseWriter × Option Nat
  /-- The conversion uint(x) of a float64 outside the range of uint, which Go leaves to the
  implementation. -/
  uintOutOfRange : Int → Nat

/-- The conversion uint(x) of an integral float64. -/
def uint (D : Deps) (z : Int) : Nat :=
  if 0 ≤ z ∧ z < 2 ^ 64 then z.toNat else D.uintOutOfRange z

/-! ## package database -/

/-- Modelled from the spec: the identity store of the database package (its code is not among
the sources): the auth_user rows, and the access codes with the baid each resolves to. -/
structure Store where
  users : List AuthUser
  accessCodes : List (String × Nat)
deriving DecidableEq, Repr

namespace database

/-- Modelled from the spec: the conflict kind answered by is_auth_user_unique (the database
package is not among the sources; auth.go names only USERNAMEFOUND). -/
inductive FoundType where
  | NOTFOUND
  | USERNAMEFOUND
  | BAIDFOUND
deriving DecidableEq, Repr

/-- Modelled from the spec: get_baid_from_access_code(code) → (baid, exists, err) of the
database package, which is not among the sources. -/
def GetBaidFromAccessCode (f : Faults) (st : Store) (accessCode : String) : Nat × Bool × Bool :=
  if f.GetBaidFromAccessCode then (0, false, true)
  else
    match st.accessCodes.find? (fun p => p.1 = accessCode) with
    | some p => (p.2, true, false)
    | none => (0, false, false)

/-- Modelled from the spec: is_auth_user_unique(username, baid) → (unique, conflict_kind, err)
of the database package, which is not among the sources; a username clash is reported
before a baid clash. -/
def IsAuthUserUnique (f : Faults) (st : Store) (username : String) (baid : Nat) :
    Bool × FoundType × Bool :=
  if f.IsAuthUserUnique then (false, FoundType.NOTFOUND, true)
  else if st.users.any (fun u => u.Username = username) then (false, FoundType.USERNAMEFOUND, false)
  else if st.users.any (fun u => u.Baid = baid) then (false, FoundType.BAIDFOUND, false)
  else (true, FoundType.NOTFOUND, false)

/-- Modelled from the spec: insert_auth_user(user) of the database package, which is not among
the sources; an insert that answers with an error stores nothing. -/
def InsertAuthUser (f : Faults) (st : Store) (user : AuthUser) : Store × Bool :=
  if f.InsertAuthUser then (st, true)
  else ({ st with users := st.users ++ [user] }, false)

/-- Modelled from the spec: get_auth_user_by_username(username) → (user, found, err) of the
database package, which is not among the sources. -/
def GetAuthUserByUsername (f : Faults) (st : Store) (username : String) :
    AuthUser × Bool × Bool :=
  if f.GetAuthUserByUsername then (default, false, true)
  else
    match st.users.find? (fun u => u.Username = username) with
    | some u => (u, true, false)
    | none => (default, false, false)

/-- Modelled from the spec: get_username_by_baid(baid) → (username, found, err) of the
database package, which is not among the sources. -/
def GetUsernameByBaid (f : Faults) (st : Store) (baid : Nat) : String × Bool × Bool :=
  if f.GetUsernameByBaid then ("", false, true)
  else
    match st.users.find? (fun u => u.Baid = baid) with
    | some u => (u.Username, true, false)
    | none => ("", false, false)

/-- Modelled from the spec: get_password_hash_by_baid(baid) → (hash, found, err) of the
database package, which is not among the sources. -/
def GetPasswordHashByBaid (f : Faults) (st : Store) (baid : Nat) : String × Bool × Bool :=
  if f.GetPasswordHashByBaid then ("", false, true)
  else
    match st.users.find? (fun u => u.Baid = baid) with
    | some u => (u.PasswordHash, true, false)
    | none => ("", false, false)

/-- Modelled from the spec: change_username(baid, new_username) of the database package, which
is not among the sources; a change that answers with an error stores nothing. -/
def ChangeUsername (f : Faults) (st : Store) (baid : Nat) (username : String) : Store × Bool :=
  if f.ChangeUsername then (st, true)
  else
    let users := st.users.map (fun u => if u.Baid = baid then { u with Username := username } else u)
    ({ st with users := users }, false)

/-- Modelled from the spec: change_password(baid, new_hash) of the database package, which is
not among the sources; a change that answers with an error stores nothing. -/
def ChangePassword (f : Faults) (st : Store) (baid : Nat) (hash : String) : Store × Bool :=
  if f.ChangePassword then (st, true)
  else
    let users := st.users.map (fun u => if u.Baid = baid then { u with PasswordHash := hash } else u)
    ({ st with users := users }, false)

end database

/-! ## package handlers: auth.go -/

namespace AuthHandler

/-- The handler Register (auth.go, lines 19-80). -/
def Register (D : Deps) (e : Env) (st : Store) (r : Request) : ResponseWriter × Store :=
  let w : ResponseWriter := {}
  match r.Form with
  | none => (httpError w "Invalid form" StatusBadRequest, st)
  | some form =>
    let username := form "username"
    let password := form "password"
    let accessCode := form "accessCode"
    if username = "" ∨ password = "" ∨ accessCode = "" then
      (httpError w "Invalid form" StatusBadRequest, st)
    else if username.utf8ByteSize > 20 then
      (httpError w "Username must be less than or equal to 20 characters long" StatusBadRequest, st)
    else
      match database.GetBaidFromAccessCode e.faults st accessCode with
      | (baid, doesExist, err) =>
        if err then (httpError w "Error getting access code" StatusInternalServerError, st)
        else if !doesExist then (httpError w "Access code not found" StatusBadRequest, st)
        else
          match database.IsAuthUserUnique e.faults st username baid with
          | (unique, foundType, err) =>
            if err || !unique then
              if err then
                (httpError w "Error checking if user is unique" StatusInternalServerError, st)
              else if foundType = database.FoundType.USERNAMEFOUND then
                (httpError w "Username already exists" StatusBadRequest, st)
              else (httpError w "Access code already linked" StatusBadRequest, st)
            else
              match D.GenerateFromPassword e.rand password with
              | none => (httpError w "Error hashing password" StatusInternalServerError, st)
              | some hash =>
                let user : AuthUser := { Username := username, Baid := baid, PasswordHash := hash }
                match database.InsertAuthUser e.faults st user with
                | (st1, err) =>
                  if err then (httpError w "Error inserting user" StatusInternalServerError, st1)
                  else (w.WriteHeader StatusOK, st1)

/-- The handler Login (auth.go, lines 82-145). -/
def Login (D : Deps) (e : Env) (st : Store) (r : Request) : ResponseWriter :=
  let w : ResponseWriter := {}
  match r.cookie with
  | some _ => httpError w "User already logged in" StatusBadRequest
  | none =>
    match r.Form with
    | none => httpError w "Invalid form" StatusBadRequest
    | some form =>
      let username := form "username"
      let password := form "password"
      if username = "" ∨ password = "" then httpError w "Invalid form" StatusBadRequest
      else
        match database.GetAuthUserByUsername e.faults st username with
        | (user, found, err) =>
          if err then httpError w "Error getting user" StatusInternalServerError
          else if !found then httpError w "Username or Password is incorrect" StatusUnauthorized
          else if !D.CompareHashAndPassword user.PasswordHash password then
            httpError w "Username or Password is incorrect" StatusUnauthorized
          else
            match D.SignedString user.Baid (e.clock 0 + 30 * 24 * 3600) D.SessionSecret with
            | none => httpError w "Error creating token" StatusInternalServerError
            | some tokenString =>
              let expiration := e.clock 1 + 30 * 24 * 3600
              let cookie : Cookie :=
                { Name := "Authorization", Value := tokenString, Expires := expiration,
                  HttpOnly := true, Secure := true, SameSite := SameSite.LaxMode, Path := "/" }
              let simpleUser : SimpleAuthUser := { Username := user.Username, Baid := user.Baid }
              jsonEncode (SetCookie w cookie) simpleUser

/-- The key function Session hands to jwt.Parse (auth.go, lines 153-158). -/
def keyFunc (D : Deps) (m : SigningMethod) : Option String :=
  match m with
  | SigningMethod.HMAC => some D.SessionSecret
  | _ => none

/-- The handler Session (auth.go, lines 147-183); none when a type assertion on a claim
panics. -/
def Session (D : Deps) (e : Env) (st : Store) (r : Request) : Option ResponseWriter :=
  let w : ResponseWriter := {}
  match r.cookie with
  | none => some (httpError w "Unauthorized" StatusUnauthorized)
  | some value =>
    match D.Parse value (keyFunc D) (e.clock 0) with
    | none => some (httpError w "Unauthorized" StatusUnauthorized)
    | some token =>
      match token.Claims, token.Valid with
      | some claims, true =>
        match claims.exp with
        | none => none
        | some exp =>
          let w1 := if float64OfInt (e.clock 1) > exp then
            httpError w "Unauthorized" StatusUnauthorized else w
          match claims.sub with
          | none => none
          | some sub =>
            let baid := uint D (mathRound sub)
            match database.GetUsernameByBaid e.faults st baid with
            | (username, found, _) =>
              if !found then some (httpError w1 "Unauthorized" StatusInternalServerError)
              else some (jsonEncode w1 { Username := username, Baid := baid })
      | _, _ => some (jsonEncode w { Username := "", Baid := 0 })

/-- The handler Logout (auth.go, lines 185-197). -/
def Logout : ResponseWriter :=
  let cookie : Cookie :=
    { Name := "Authorization", Value := "", Expires := 0,
      HttpOnly := true, Secure := true, SameSite := SameSite.LaxMode, Path := "/" }
  (SetCookie {} cookie).WriteHeader StatusOK

/-- The handler ChangeUsername (auth.go, lines 199-240). -/
def ChangeUsername (D : Deps) (e : Env) (st : Store) (r : Request) : ResponseWriter × Store :=
  match D.verifyClientBaid {} r with
  | (w, none) => (w, st)
  | (w, some id) =>
    match r.Body with
    | none => (httpError w "Invalid Request Body" StatusBadRequest, st)
    | some upd =>
      if upd.Username.utf8ByteSize < 1 ∨ upd.Username.utf8ByteSize > 20 then
        (httpError w "Username must be less than or equal to 20 characters long"
          StatusBadRequest, st)
      else
        match database.GetAuthUserByUsername e.faults st upd.Username with
        | (_, found, err) =>
          if err then
            (httpError w "Error checking if username is unique" StatusInternalServerError, st)
          else if found then (httpError w "Username already in use" StatusConflict, st)
          else
            match database.ChangeUsername e.faults st id upd.Username with
            | (st1, err) =>
              if err then
                (httpError w "Error changing username" StatusInternalServerError, st1)
              else (w.WriteHeader StatusOK, st1)

/-- The handler ChangePassword (auth.go, lines 242-294). -/
def ChangePassword (D : Deps) (e : Env) (st : Store) (r : Request) : ResponseWriter × Store :=
  match D.verifyClientBaid {} r with
  | (w, none) => (w, st)
  | (w, some id) =>
    match r.Body with
    | none => (httpError w "Invalid Request Body" StatusBadRequest, st)
    | some upd =>
      match database.GetPasswordHashByBaid e.faults st id with
      | (passwordHash, found, err) =>
        if err || !found then
          (httpError w "Error checking password" StatusInternalServerError, st)
        else if !D.CompareHashAndPassword passwordHash upd.CurrentPassword then
          (httpError w "Password is incorrect" StatusUnauthorized, st)
        else if upd.NewPassword.utf8ByteSize < 8 ∨ upd.NewPassword.utf8ByteSize > 100 then
          (httpError w "New password must be between 8 and 100 characters" StatusBadRequest, st)
        else
          match D.GenerateFromPassword e.rand upd.NewPassword with
          | none => (httpError w "Error hashing new password" StatusInternalServerError, st)
          | some hash =>
            match database.ChangePassword e.faults st id hash with
            | (st1, err) =>
              if err then
                (httpError w "Error changing password" StatusInternalServerError, st1)
              else (w.WriteHeader StatusOK, st1)

end AuthHandler

/-! ## sequential execution -/

/-- One call of a handler. -/
inductive Call where
  | Register
  | Login
  | Session
  | Logout
  | ChangeUsername
  | ChangePassword
deriving DecidableEq, Repr

/-- The account table after one call of a handler on a request. -/
def storeAfter (D : Deps) (e : Env) (c : Call) (st : Store) (r : Request) : Store :=
  match c with
  | Call.Register => (AuthHandler.Register D e st r).2
  | Call.Login => st
  | Call.Session => st
  | Call.Logout => st
  | Call.ChangeUsername => (AuthHandler.ChangeUsername D e st r).2
  | Call.ChangePassword => (AuthHandler.ChangePassword D e st r).2

/-- No two rows share a username and no two share a baid. -/
def Unique (st : Store) : Prop :=
  (st.users.map (fun u => u.Username)).Nodup ∧ (st.users.map (fun u => u.Baid)).Nodup

/-! ## Concrete runs -/

/-- A parsed form with the three fields of the register and login pages. -/
def demoForm (username password accessCode : String) : String → String :=
  fun key =>
    if key = "username" then username
    else if key = "password" then password
    else if key = "accessCode" then accessCode
    else ""

/-- Stand-ins for the libraries in concrete runs: the hash of a password is the password, the
signed token is "token", which parses to the claims sub 42 and exp 1702592000; "stale" parses
to the claims sub 42 and exp 0. -/
def demoDeps : Deps where
  SessionSecret := "secret"
  GenerateFromPassword := fun _ p => some p
  CompareHashAndPassword := fun h p => decide (h = p)
  SignedString := fun _ _ _ => some "token"
  Parse := fun tok _ _ =>
    if tok = "token" then
      some { Claims := some { sub := some 42, exp := some 1702592000 }, Valid := true }
    else if tok = "stale" then
      some { Claims := some { sub := some 42, exp := some 0 }, Valid := true }
    else none
  verifyClientBaid := fun w r =>
    if r.cookie = some "token" then (w, some 42)
    else (httpError w "Unauthorized" StatusUnauthorized, none)
  uintOutOfRange := fun _ => 0

/-- A request environment: the clock reads 1700000000 and the database answers. -/
def demoEnv : Env where
  clock := fun _ => 1700000000
  rand := 0
  faults := {}

/-- The store before any account exists: access code AC-001 resolves to baid 42, AC-002 to
baid 43. -/
def emptyStore : Store where
  users := []
  accessCodes := [("AC-001", 42), ("AC-002", 43)]

/-- The store after Register("drummer", "sticks123", "AC-001") under demoDeps. -/
def drummerStore : Store where
  users := [{ Username := "drummer", Baid := 42, PasswordHash := "sticks123" }]
  accessCodes := [("AC-001", 42), ("AC-002", 43)]

/-- The store with a second account, "taiko", on baid 43. -/
def twoStore : Store where
  users := [{ Username := "drummer", Baid := 42, PasswordHash := "sticks123" },
            { Username := "taiko", Baid := 43, PasswordHash := "donkatsu1" }]
  accessCodes := [("AC-001", 42), ("AC-002", 43)]

/-- The cookie Login sets for a token string. -/
def loginCookie (tokenString : String) (expires : Int) : Cookie where
  Name := "Authorization"
  Value := tokenString
  Expires := expires
  HttpOnly := true
  Secure := true
  SameSite := SameSite.LaxMode
  Path := "/"

/-- The account table with the username of the rows of one baid replaced. -/
def renamed (st : Store) (baid : Nat) (username : String) : Store where
  users := st.users.map (fun u => if u.Baid = baid then { u with Username := username } else u)
  accessCodes := st.accessCodes

/-- The account table with the password hash of the rows of one baid replaced. -/
def rehashed (st : Store) (baid : Nat) (hash : String) : Store where
  users := st.users.map (fun u => if u.Baid = baid then { u with PasswordHash := hash } else u)
  accessCodes := st.accessCodes

/-- The account table with one more row. -/
def inserted (st : Store) (user : AuthUser) : Store where
  users := st.users ++ [user]
  accessCodes := st.accessCodes

/-- The account table after a sequence of calls, each with its environment and its request. -/
def storeAfterAll (D : Deps) : List (Env × Call × Request) → Store → Store
  | [], st => st
  | x :: rest, st => storeAfterAll D rest (storeAfter D x.1 x.2.1 st x.2.2)

/-! ## The response writer -/

theorem httpError_new (msg : String) (code : Nat) :
    httpError {} msg code = { status := some code, cookies := [], body := [Chunk.text msg] } := rfl

theorem WriteHeader_new (code : Nat) :
    ResponseWriter.WriteHeader {} code = { status := some code, cookies := [], body := [] } := rfl

theorem code_mk (s : Nat) (c : List Cookie) (b : List Chunk) :
    ResponseWriter.code { status := some s, cookies := c, body := b } = s := rfl

/-! ## The database answers -/

theorem IsAuthUserUnique_true (f : Faults) (st : Store) (username : String) (baid : Nat)
    (ft : database.FoundType) (er : Bool)
    (h : database.IsAuthUserUnique f st username baid = (true, ft, er)) :
    ft = database.FoundType.NOTFOUND ∧ er = false ∧ f.IsAuthUserUnique = false ∧
      (∀ u ∈ st.users, u.Username ≠ username) ∧ (∀ u ∈ st.users, u.Baid ≠ baid) := by
  unfold database.IsAuthUserUnique at h
  split_ifs at h with h1 h2 h3 <;> simp at h
  simp only [List.any_eq_true, decide_eq_true_eq, not_exists, not_and] at h2 h3
  exact ⟨h.1.symm, h.2, by simpa using h1, h2, h3⟩

theorem GetAuthUserByUsername_none (f : Faults) (st : Store) (username : String)
    (hf : f.GetAuthUserByUsername = false) (h : ∀ u ∈ st.users, u.Username ≠ username) :
    database.GetAuthUserByUsername f st username = (default, false, false) := by
  have : st.users.find? (fun u => decide (u.Username = username)) = none := by
    rw [List.find?_eq_none]
    intro u hu
    simpa using h u hu
  simp [database.GetAuthUserByUsername, hf, this]

theorem GetAuthUserByUsername_some (f : Faults) (st : Store) (username : String)
    (hf : f.GetAuthUserByUsername = false) (h : ∃ u ∈ st.users, u.Username = username) :
    ∃ row ∈ st.users, row.Username = username ∧
      database.GetAuthUserByUsername f st username = (row, true, false) := by
  cases hfind : st.users.find? (fun u => decide (u.Username = username)) with
  | none =>
    rw [List.find?_eq_none] at hfind
    obtain ⟨u, hu, hn⟩ := h
    exact absurd hn (by simpa using hfind u hu)
  | some row =>
    refine ⟨row, List.mem_of_find?_eq_some hfind, ?_, ?_⟩
    · simpa using List.find?_some hfind
    · simp [database.GetAuthUserByUsername, hf, hfind]

/-! ## Register -/

/-- Register either answers with an error and leaves the table alone, or answers 200 and has
inserted one row, for a username and a baid that the uniqueness check found free. -/
theorem Register_cases (D : Deps) (e : Env) (st : Store) (r : Request) :
    ((AuthHandler.Register D e st r).2 = st ∧ (AuthHandler.Register D e st r).1.code ≠ 200) ∨
    ∃ form baid hash,
      r.Form = some form ∧ form "username" ≠ "" ∧ form "password" ≠ "" ∧
      form "accessCode" ≠ "" ∧ (form "username").utf8ByteSize ≤ 20 ∧
      database.GetBaidFromAccessCode e.faults st (form "accessCode") = (baid, true, false) ∧
      database.IsAuthUserUnique e.faults st (form "username") baid
        = (true, database.FoundType.NOTFOUND, false) ∧
      D.GenerateFromPassword e.rand (form "password") = some hash ∧
      e.faults.InsertAuthUser = false ∧
      AuthHandler.Register D e st r =
        ({ status := some 200, cookies := [], body := [] },
          inserted st { Username := form "username", Baid := baid, PasswordHash := hash }) := by
  unfold AuthHandler.Register
  cases hF : r.Form with
  | none => left; simp [httpError_new, code_mk, StatusBadRequest]
  | some form =>
    rcases hG : database.GetBaidFromAccessCode e.faults st (form "accessCode") with ⟨baid, ex, er⟩
    rcases hU : database.IsAuthUserUnique e.faults st (form "username") baid with ⟨un, ft, er2⟩
    simp only [hG, hU]
    by_cases h1 : form "username" = "" ∨ form "password" = "" ∨ form "accessCode" = ""
    · left; simp [h1, httpError_new, code_mk, StatusBadRequest]
    by_cases h2 : (form "username").utf8ByteSize > 20
    · left; simp [h1, h2, httpError_new, code_mk, StatusBadRequest]
    simp only [h1, h2, if_false]
    cases hH : D.GenerateFromPassword e.rand (form "password") <;>
      cases hI : e.faults.InsertAuthUser <;> cases ex <;> cases er <;> cases un <;> cases er2 <;>
      simp [hH, hI, database.InsertAuthUser, httpError_new, code_mk, StatusBadRequest,
        StatusInternalServerError, WriteHeader_new, StatusOK, inserted]
    all_goals first
      | (constructor <;> split_ifs <;> simp [code_mk])
      | (have hft := (IsAuthUserUnique_true _ _ _ _ _ _ hU).1
         subst hft
         simp only [not_or] at h1
         exact ⟨h1.1, h1.2.1, h1.2.2, by omega, hG, hU⟩)

/-- A successful Register has inserted exactly one row. -/
theorem Register_ok (D : Deps) (e : Env) (st : Store) (r : Request)
    (h : (AuthHandler.Register D e st r).1.code = 200) :
    ∃ form baid hash,
      r.Form = some form ∧ form "username" ≠ "" ∧ form "password" ≠ "" ∧
      form "accessCode" ≠ "" ∧ (form "username").utf8ByteSize ≤ 20 ∧
      database.GetBaidFromAccessCode e.faults st (form "accessCode") = (baid, true, false) ∧
      database.IsAuthUserUnique e.faults st (form "username") baid
        = (true, database.FoundType.NOTFOUND, false) ∧
      D.GenerateFromPassword e.rand (form "password") = some hash ∧
      e.faults.InsertAuthUser = false ∧
      AuthHandler.Register D e st r =
        ({ status := some 200, cookies := [], body := [] },
          inserted st { Username := form "username", Baid := baid, PasswordHash := hash }) := by
  rcases Register_cases D e st r with h1 | h1
  · exact absurd h h1.2
  · exact h1

theorem GetBaidFromAccessCode_congr (f1 f2 : Faults) (st1 st2 : Store) (c : String) (b : Nat)
    (h : database.GetBaidFromAccessCode f1 st1 c = (b, true, false))
    (hf : f2.GetBaidFromAccessCode = false) (hac : st2.accessCodes = st1.accessCodes) :
    database.GetBaidFromAccessCode f2 st2 c = (b, true, false) := by
  unfold database.GetBaidFromAccessCode at h ⊢
  rw [hac]
  split_ifs at h with h1
  · simp at h
  · simpa [hf] using h

/-- The length check of Register measures the username in bytes: with the three fields present,
the answer is the length error exactly when the username is longer than 20 bytes, and the
table is then left alone. -/
theorem Register_username_cap_bytes (D : Deps) (e : Env) (st : Store) (r : Request)
    (form : String → String) (hF : r.Form = some form)
    (hu : form "username" ≠ "") (hp : form "password" ≠ "") (ha : form "accessCode" ≠ "") :
    ((AuthHandler.Register D e st r).1 =
        httpError {} "Username must be less than or equal to 20 characters long" StatusBadRequest
      ↔ 20 < (form "username").utf8ByteSize) ∧
    (20 < (form "username").utf8ByteSize → (AuthHandler.Register D e st r).2 = st) := by
  unfold AuthHandler.Register
  have h1 : ¬ (form "username" = "" ∨ form "password" = "" ∨ form "accessCode" = "") := by
    simp [hu, hp, ha]
  by_cases h2 : (form "username").utf8ByteSize > 20
  · simp [hF, h1, h2]
  · have h2n : ¬ 20 < (form "username").utf8ByteSize := h2
    simp only [hF, h1, h2, h2n, if_false, iff_false, false_imp_iff, and_true]
    rcases hG : database.GetBaidFromAccessCode e.faults st (form "accessCode") with ⟨baid, ex, er⟩
    rcases hU : database.IsAuthUserUnique e.faults st (form "username") baid with ⟨un, ft, er2⟩
    cases hH : D.GenerateFromPassword e.rand (form "password") <;>
      cases hI : e.faults.InsertAuthUser <;> cases ex <;> cases er <;> cases un <;> cases er2 <;>
      simp [hU, hH, hI, database.InsertAuthUser, httpError_new, StatusBadRequest,
        StatusInternalServerError, WriteHeader_new, StatusOK]
    all_goals (split_ifs <;> simp)

theorem IsAuthUserUnique_username (f : Faults) (st : Store) (username : String) (baid : Nat)
    (hf : f.IsAuthUserUnique = false) (h : ∃ u ∈ st.users, u.Username = username) :
    database.IsAuthUserUnique f st username baid
      = (false, database.FoundType.USERNAMEFOUND, false) := by
  have hany : (st.users.any fun u => decide (u.Username = username)) = true := by
    rw [List.any_eq_true]
    obtain ⟨u, hu, hn⟩ := h
    exact ⟨u, hu, by simpa using hn⟩
  simp [database.IsAuthUserUnique, hf, hany]

theorem IsAuthUserUnique_baid (f : Faults) (st : Store) (username : String) (baid : Nat)
    (hf : f.IsAuthUserUnique = false) (hn : ∀ u ∈ st.users, u.Username ≠ username)
    (h : ∃ u ∈ st.users, u.Baid = baid) :
    database.IsAuthUserUnique f st username baid
      = (false, database.FoundType.BAIDFOUND, false) := by
  have hany1 : (st.users.any fun u => decide (u.Username = username)) = false := by
    rw [List.any_eq_false]
    intro u hu
    simpa using hn u hu
  have hany2 : (st.users.any fun u => decide (u.Baid = baid)) = true := by
    rw [List.any_eq_true]
    obtain ⟨u, hu, hb⟩ := h
    exact ⟨u, hu, by simpa using hb⟩
  simp [database.IsAuthUserUnique, hf, hany1, hany2]

/-- A well-formed Register for a username that an account holds answers "Username already
exists" and leaves the table alone. -/
theorem Register_username_taken (D : Deps) (e : Env) (st : Store) (r : Request)
    (form : String → String) (b : Nat) (hF : r.Form = some form)
    (hu : form "username" ≠ "") (hp : form "password" ≠ "") (ha : form "accessCode" ≠ "")
    (hlen : (form "username").utf8ByteSize ≤ 20)
    (hG : database.GetBaidFromAccessCode e.faults st (form "accessCode") = (b, true, false))
    (hf : e.faults.IsAuthUserUnique = false)
    (h : ∃ u ∈ st.users, u.Username = form "username") :
    AuthHandler.Register D e st r =
      (httpError {} "Username already exists" StatusBadRequest, st) := by
  have h1 : ¬ (form "username" = "" ∨ form "password" = "" ∨ form "accessCode" = "") := by
    simp [hu, hp, ha]
  have h2 : ¬ (form "username").utf8ByteSize > 20 := by omega
  unfold AuthHandler.Register
  simp [hF, h1, h2, hG, IsAuthUserUnique_username _ _ _ _ hf h]

/-- A well-formed Register for a free username and an access code whose baid an account holds
answers "Access code already linked" and leaves the table alone. -/
theorem Register_baid_taken (D : Deps) (e : Env) (st : Store) (r : Request)
    (form : String → String) (b : Nat) (hF : r.Form = some form)
    (hu : form "username" ≠ "") (hp : form "password" ≠ "") (ha : form "accessCode" ≠ "")
    (hlen : (form "username").utf8ByteSize ≤ 20)
    (hG : database.GetBaidFromAccessCode e.faults st (form "accessCode") = (b, true, false))
    (hf : e.faults.IsAuthUserUnique = false)
    (hn : ∀ u ∈ st.users, u.Username ≠ form "username")
    (h : ∃ u ∈ st.users, u.Baid = b) :
    AuthHandler.Register D e st r =
      (httpError {} "Access code already linked" StatusBadRequest, st) := by
  have h1 : ¬ (form "username" = "" ∨ form "password" = "" ∨ form "accessCode" = "") := by
    simp [hu, hp, ha]
  have h2 : ¬ (form "username").utf8ByteSize > 20 := by omega
  unfold AuthHandler.Register
  simp [hF, h1, h2, hG, IsAuthUserUnique_baid _ _ _ _ hf hn h]

/-- C8. Register caps the username at 20 bytes, not 20 characters: the username made of eleven
letters é has 11 characters and 22 bytes, and Register (password and access code present)
answers 400 "Username must be less than or equal to 20 characters long" for it, without
touching the table. -/
theorem Register_rejects_eleven_character_username :
    "ééééééééééé".length = 11 ∧
    AuthHandler.Register demoDeps demoEnv emptyStore
        { Form := some (demoForm "ééééééééééé" "sticks123" "AC-001") } =
      (httpError {} "Username must be less than or equal to 20 characters long" StatusBadRequest,
        emptyStore) := by
  decide

/-! ## Login -/

/-- Login with a form naming an account whose hash verifies the password: 200, the cookie, the
JSON body. -/
theorem Login_accepts (D : Deps) (e : Env) (st : Store) (r : Request) (form : String → String)
    (row : AuthUser) (tok : String)
    (hc : r.cookie = none) (hF : r.Form = some form)
    (hu : form "username" ≠ "") (hp : form "password" ≠ "")
    (hget : database.GetAuthUserByUsername e.faults st (form "username") = (row, true, false))
    (hver : D.CompareHashAndPassword row.PasswordHash (form "password") = true)
    (hsign : D.SignedString row.Baid (e.clock 0 + 30 * 24 * 3600) D.SessionSecret = some tok) :
    AuthHandler.Login D e st r =
      { status := some 200, cookies := [loginCookie tok (e.clock 1 + 30 * 24 * 3600)],
        body := [Chunk.json { Username := row.Username, Baid := row.Baid }] } := by
  unfold AuthHandler.Login
  norm_num at hsign
  simp [hc, hF, hu, hp, hget, hver, hsign, jsonEncode, SetCookie, ResponseWriter.Write,
    ResponseWriter.WriteHeader, StatusOK, loginCookie]

/-- Login with a form naming no account, or an account whose hash does not verify the
password: the one 401 answer. -/
theorem Login_rejects (D : Deps) (e : Env) (st : Store) (r : Request) (form : String → String)
    (row : AuthUser) (found : Bool)
    (hc : r.cookie = none) (hF : r.Form = some form)
    (hu : form "username" ≠ "") (hp : form "password" ≠ "")
    (hget : database.GetAuthUserByUsername e.faults st (form "username") = (row, found, false))
    (hbad : found = false ∨ D.CompareHashAndPassword row.PasswordHash (form "password") = false) :
    AuthHandler.Login D e st r =
      httpError {} "Username or Password is incorrect" StatusUnauthorized := by
  unfold AuthHandler.Login
  rcases hbad with hbad | hbad
  · simp [hc, hF, hu, hp, hget, hbad]
  · cases found <;> simp [hc, hF, hu, hp, hget, hbad]

/-- A Login that answers 200 found an account under the submitted username, verified the
password against its hash, and signed a token for its baid. -/
theorem Login_ok (D : Deps) (e : Env) (st : Store) (r : Request)
    (h : (AuthHandler.Login D e st r).code = 200) :
    ∃ form row tok,
      r.cookie = none ∧ r.Form = some form ∧ form "username" ≠ "" ∧ form "password" ≠ "" ∧
      database.GetAuthUserByUsername e.faults st (form "username") = (row, true, false) ∧
      D.CompareHashAndPassword row.PasswordHash (form "password") = true ∧
      D.SignedString row.Baid (e.clock 0 + 30 * 24 * 3600) D.SessionSecret = some tok ∧
      AuthHandler.Login D e st r =
        { status := some 200, cookies := [loginCookie tok (e.clock 1 + 30 * 24 * 3600)],
          body := [Chunk.json { Username := row.Username, Baid := row.Baid }] } := by
  cases hc : r.cookie with
  | some v => simp [AuthHandler.Login, hc, httpError_new, code_mk, StatusBadRequest] at h
  | none =>
    cases hF : r.Form with
    | none => simp [AuthHandler.Login, hc, hF, httpError_new, code_mk, StatusBadRequest] at h
    | some form =>
      by_cases h1 : form "username" = "" ∨ form "password" = ""
      · simp [AuthHandler.Login, hc, hF, h1, httpError_new, code_mk, StatusBadRequest] at h
      simp only [not_or] at h1
      rcases hget : database.GetAuthUserByUsername e.faults st (form "username")
        with ⟨row, found, err⟩
      cases hsign : D.SignedString row.Baid (e.clock 0 + 30 * 24 * 3600) D.SessionSecret with
      | none =>
        exfalso
        norm_num at hsign
        cases found <;> cases err <;>
          cases hv : D.CompareHashAndPassword row.PasswordHash (form "password") <;>
          simp [AuthHandler.Login, hc, hF, h1, hget, hv, hsign, httpError_new, code_mk,
            StatusInternalServerError, StatusUnauthorized] at h
      | some tok =>
        cases hv : D.CompareHashAndPassword row.PasswordHash (form "password") with
        | false =>
          exfalso
          cases found <;> cases err <;>
            simp [AuthHandler.Login, hc, hF, h1, hget, hv, hsign, httpError_new, code_mk,
              StatusInternalServerError, StatusUnauthorized] at h
        | true =>
          cases found <;> cases err
          · simp [AuthHandler.Login, hc, hF, h1, hget, hv, hsign, httpError_new, code_mk,
              StatusInternalServerError, StatusUnauthorized] at h
          · simp [AuthHandler.Login, hc, hF, h1, hget, hv, hsign, httpError_new, code_mk,
              StatusInternalServerError, StatusUnauthorized] at h
          · exact ⟨form, row, tok, rfl, rfl, h1.1, h1.2, hget, hv, hsign,
              Login_accepts D e st r form row tok hc hF h1.1 h1.2 hget hv hsign⟩
          · simp [AuthHandler.Login, hc, hF, h1, hget, hv, hsign, httpError_new, code_mk,
              StatusInternalServerError, StatusUnauthorized] at h

/-- C3. Login does not tell an unknown username from a wrong password: without a cookie and
with both fields filled in, a request naming a username no account holds and a request
naming an account whose hash does not verify the submitted password get the same answer,
401 "Username or Password is incorrect" with no cookie set, and the table is the same after
either. -/
theorem Login_failures_identical (D : Deps) (e1 e2 : Env) (st : Store) (r1 r2 : Request)
    (f1 f2 : String → String)
    (hc1 : r1.cookie = none) (hc2 : r2.cookie = none)
    (hF1 : r1.Form = some f1) (hF2 : r2.Form = some f2)
    (hu1 : f1 "username" ≠ "") (hp1 : f1 "password" ≠ "")
    (hu2 : f2 "username" ≠ "") (hp2 : f2 "password" ≠ "")
    (he1 : e1.faults.GetAuthUserByUsername = false)
    (he2 : e2.faults.GetAuthUserByUsername = false)
    (hmiss : ∀ u ∈ st.users, u.Username ≠ f1 "username")
    (hhit : ∃ u ∈ st.users, u.Username = f2 "username")
    (hbad : ∀ u ∈ st.users, u.Username = f2 "username" →
      D.CompareHashAndPassword u.PasswordHash (f2 "password") = false) :
    AuthHandler.Login D e1 st r1 = AuthHandler.Login D e2 st r2 ∧
    AuthHandler.Login D e1 st r1 =
      { status := some 401, cookies := [],
        body := [Chunk.text "Username or Password is incorrect"] } ∧
    storeAfter D e1 Call.Login st r1 = st ∧ storeAfter D e2 Call.Login st r2 = st := by
  have hA := Login_rejects D e1 st r1 f1 default false hc1 hF1 hu1 hp1
    (GetAuthUserByUsername_none _ _ _ he1 hmiss) (Or.inl rfl)
  obtain ⟨row, hrow, hname, hget⟩ := GetAuthUserByUsername_some _ _ _ he2 hhit
  have hB := Login_rejects D e2 st r2 f2 row true hc2 hF2 hu2 hp2 hget
    (Or.inr (hbad row hrow hname))
  exact ⟨hA.trans hB.symm, hA, rfl, rfl⟩

/-- A run of C3 on the table holding only "drummer": Login("nobody", "sticks123") and
Login("drummer", "wrongpass") get the same answer. -/
theorem Login_failures_identical_witness :
    AuthHandler.Login demoDeps demoEnv drummerStore
        { Form := some (demoForm "nobody" "sticks123" "") } =
      AuthHandler.Login demoDeps demoEnv drummerStore
        { Form := some (demoForm "drummer" "wrongpass" "") } ∧
    AuthHandler.Login demoDeps demoEnv drummerStore
        { Form := some (demoForm "nobody" "sticks123" "") } =
      { status := some 401, cookies := [],
        body := [Chunk.text "Username or Password is incorrect"] } ∧
    storeAfter demoDeps demoEnv Call.Login drummerStore
        { Form := some (demoForm "nobody" "sticks123" "") } = drummerStore ∧
    storeAfter demoDeps demoEnv Call.Login drummerStore
        { Form := some (demoForm "drummer" "wrongpass" "") } = drummerStore :=
  Login_failures_identical demoDeps demoEnv demoEnv drummerStore
    { Form := some (demoForm "nobody" "sticks123" "") }
    { Form := some (demoForm "drummer" "wrongpass" "") }
    (demoForm "nobody" "sticks123" "") (demoForm "drummer" "wrongpass" "")
    rfl rfl rfl rfl (by decide) (by decide) (by decide) (by decide) rfl rfl
    (by decide) (by decide) (by decide)

/-! ## ChangeUsername and ChangePassword -/

/-- ChangeUsername either leaves the table alone or has renamed the rows of one baid to a
username that no row held. -/
theorem ChangeUsername_store (D : Deps) (e : Env) (st : Store) (r : Request) :
    (AuthHandler.ChangeUsername D e st r).2 = st ∨
    ∃ b n, (∀ u ∈ st.users, u.Username ≠ n) ∧
      (AuthHandler.ChangeUsername D e st r).2 = renamed st b n := by
  unfold AuthHandler.ChangeUsername
  rcases hV : D.verifyClientBaid {} r with ⟨w, o⟩
  cases o with
  | none => left; rfl
  | some id =>
    cases hB : r.Body with
    | none => left; rfl
    | some upd =>
      simp only
      by_cases hlen : upd.Username.utf8ByteSize < 1 ∨ upd.Username.utf8ByteSize > 20
      · left; rw [if_pos hlen]
      rw [if_neg hlen]
      cases hf : e.faults.GetAuthUserByUsername with
      | true => left; simp [database.GetAuthUserByUsername, hf]
      | false =>
        by_cases hex : ∃ u ∈ st.users, u.Username = upd.Username
        · obtain ⟨row, -, -, hget⟩ := GetAuthUserByUsername_some e.faults st _ hf hex
          left; simp [hget]
        · have hfree : ∀ u ∈ st.users, u.Username ≠ upd.Username :=
            fun u hu hn => hex ⟨u, hu, hn⟩
          rw [GetAuthUserByUsername_none e.faults st _ hf hfree]
          cases hc : e.faults.ChangeUsername with
          | true => left; simp [database.ChangeUsername, hc]
          | false =>
            right
            exact ⟨id, upd.Username, hfree, by simp [database.ChangeUsername, hc, renamed]⟩

/-- ChangePassword either leaves the table alone or has replaced the hash in the rows of one
baid. -/
theorem ChangePassword_store (D : Deps) (e : Env) (st : Store) (r : Request) :
    (AuthHandler.ChangePassword D e st r).2 = st ∨
    ∃ b h, (AuthHandler.ChangePassword D e st r).2 = rehashed st b h := by
  unfold AuthHandler.ChangePassword
  rcases hV : D.verifyClientBaid {} r with ⟨w, o⟩
  cases o with
  | none => left; rfl
  | some id =>
    cases hB : r.Body with
    | none => left; rfl
    | some upd =>
      simp only
      rcases hG : database.GetPasswordHashByBaid e.faults st id with ⟨ph, found, err⟩
      simp only
      by_cases h1 : (err || !found) = true
      · left; rw [if_pos h1]
      rw [if_neg h1]
      by_cases h2 : (!D.CompareHashAndPassword ph upd.CurrentPassword) = true
      · left; rw [if_pos h2]
      rw [if_neg h2]
      by_cases h3 : upd.NewPassword.utf8ByteSize < 8 ∨ upd.NewPassword.utf8ByteSize > 100
      · left; rw [if_pos h3]
      rw [if_neg h3]
      cases hH : D.GenerateFromPassword e.rand upd.NewPassword with
      | none => left; rfl
      | some hash =>
        cases hc : e.faults.ChangePassword with
        | true => left; simp [database.ChangePassword, hc]
        | false =>
          right
          exact ⟨id, hash, by simp [database.ChangePassword, hc, rehashed]⟩

/-! ## Uniqueness of usernames and baids -/

theorem Unique_inserted (st : Store) (row : AuthUser) (h : Unique st)
    (hn : ∀ u ∈ st.users, u.Username ≠ row.Username) (hb : ∀ u ∈ st.users, u.Baid ≠ row.Baid) :
    Unique (inserted st row) := by
  unfold Unique inserted at *
  simp only [List.map_append, List.map_cons, List.map_nil]
  constructor
  · rw [List.nodup_append]
    refine ⟨h.1, List.nodup_singleton _, ?_⟩
    intro x hx hx2
    simp only [List.mem_map] at hx
    simp only [List.mem_singleton] at hx2
    obtain ⟨u, hu, rfl⟩ := hx
    exact hn u hu hx2
  · rw [List.nodup_append]
    refine ⟨h.2, List.nodup_singleton _, ?_⟩
    intro x hx hx2
    simp only [List.mem_map] at hx
    simp only [List.mem_singleton] at hx2
    obtain ⟨u, hu, rfl⟩ := hx
    exact hb u hu hx2

theorem rename_usernames_nodup (l : List AuthUser) (b : Nat) (n : String)
    (hn : ∀ u ∈ l, u.Username ≠ n)
    (hU : (l.map (fun u => u.Username)).Nodup) (hB : (l.map (fun u => u.Baid)).Nodup) :
    ((l.map (fun u => if u.Baid = b then { u with Username := n } else u)).map
      (fun u => u.Username)).Nodup := by
  induction l with
  | nil => simp
  | cons a l ih =>
    simp only [List.map_cons, List.nodup_cons, List.mem_map, not_exists, not_and] at hU hB ⊢
    have hn2 : ∀ u ∈ l, u.Username ≠ n := fun u hu => hn u (List.mem_cons_of_mem _ hu)
    refine ⟨?_, ih hn2 hU.2 hB.2⟩
    rintro x ⟨u, hu, rfl⟩
    by_cases ha : a.Baid = b
    · have hub : u.Baid ≠ b := fun hub => hB.1 u hu (hub.trans ha.symm)
      simp only [ha, hub, if_true, if_false]
      exact hn2 u hu
    · simp only [ha, if_false]
      by_cases hub : u.Baid = b
      · simp only [hub, if_true]
        exact fun h => hn a (List.mem_cons_self _ _) h.symm
      · simp only [hub, if_false]
        exact hU.1 u hu

theorem Unique_renamed (st : Store) (b : Nat) (n : String) (h : Unique st)
    (hn : ∀ u ∈ st.users, u.Username ≠ n) : Unique (renamed st b n) := by
  unfold Unique renamed at *
  refine ⟨rename_usernames_nodup st.users b n hn h.1 h.2, ?_⟩
  have : (st.users.map (fun u => if u.Baid = b then { u with Username := n } else u)).map
      (fun u => u.Baid) = st.users.map (fun u => u.Baid) := by
    rw [List.map_map]
    apply List.map_congr_left
    intro u _
    simp only [Function.comp]
    split_ifs <;> rfl
  simp only [this]
  exact h.2

theorem Unique_rehashed (st : Store) (b : Nat) (hash : String) (h : Unique st) :
    Unique (rehashed st b hash) := by
  unfold Unique rehashed at *
  have h1 : (st.users.map (fun u => if u.Baid = b then { u with PasswordHash := hash } else u)).map
      (fun u => u.Username) = st.users.map (fun u => u.Username) := by
    rw [List.map_map]
    apply List.map_congr_left
    intro u _
    simp only [Function.comp]
    split_ifs <;> rfl
  have h2 : (st.users.map (fun u => if u.Baid = b then { u with PasswordHash := hash } else u)).map
      (fun u => u.Baid) = st.users.map (fun u => u.Baid) := by
    rw [List.map_map]
    apply List.map_congr_left
    intro u _
    simp only [Function.comp]
    split_ifs <;> rfl
  simp only [h1, h2]
  exact h

/-- C2. Uniqueness is an invariant of the account table: if no two rows share a username and
no two share a baid, the same holds after any single call of Register, Login, Session,
Logout, ChangeUsername or ChangePassword, whatever the request, the environment and the
response. -/
theorem Unique_storeAfter (D : Deps) (e : Env) (c : Call) (st : Store) (r : Request)
    (h : Unique st) : Unique (storeAfter D e c st r) := by
  cases c with
  | Register =>
    simp only [storeAfter]
    rcases Register_cases D e st r with h1 | ⟨form, baid, hash, -, -, -, -, -, -, hU, -, -, hR⟩
    · rw [h1.1]; exact h
    · rw [hR]
      have hfree := IsAuthUserUnique_true _ _ _ _ _ _ hU
      exact Unique_inserted st _ h hfree.2.2.2.1 hfree.2.2.2.2
  | Login => exact h
  | Session => exact h
  | Logout => exact h
  | ChangeUsername =>
    simp only [storeAfter]
    rcases ChangeUsername_store D e st r with h1 | ⟨b, n, hn, h1⟩
    · rw [h1]; exact h
    · rw [h1]; exact Unique_renamed st b n h hn
  | ChangePassword =>
    simp only [storeAfter]
    rcases ChangePassword_store D e st r with h1 | ⟨b, hash, h1⟩
    · rw [h1]; exact h
    · rw [h1]; exact Unique_rehashed st b hash h

/-- A run of C2: the table holding "drummer" and "taiko" stays unique when the caller on baid
42 asks for the username "donchan". -/
theorem Unique_storeAfter_witness :
    Unique twoStore ∧
    Unique (storeAfter demoDeps demoEnv Call.ChangeUsername twoStore
      { cookie := some "token",
        Body := some { Username := "donchan", CurrentPassword := "", NewPassword := "" } }) :=
  ⟨by unfold Unique; decide,
   Unique_storeAfter demoDeps demoEnv Call.ChangeUsername twoStore
      { cookie := some "token",
        Body := some { Username := "donchan", CurrentPassword := "", NewPassword := "" } }
      (by unfold Unique; decide)⟩

/-! ## Sequences of calls -/

/-- What one call can do to the account table: nothing, insert a row with a fresh username
and a fresh baid (Register), rename the rows of a baid to a fresh username (ChangeUsername),
or replace the hash in the rows of a baid (ChangePassword). -/
theorem storeAfter_cases (D : Deps) (e : Env) (c : Call) (st : Store) (r : Request) :
    storeAfter D e c st r = st ∨
    (c = Call.Register ∧ ∃ row,
      (∀ u ∈ st.users, u.Username ≠ row.Username) ∧ (∀ u ∈ st.users, u.Baid ≠ row.Baid) ∧
      storeAfter D e c st r = inserted st row) ∨
    (c = Call.ChangeUsername ∧ ∃ b n, (∀ u ∈ st.users, u.Username ≠ n) ∧
      storeAfter D e c st r = renamed st b n) ∨
    (c = Call.ChangePassword ∧ ∃ b h, storeAfter D e c st r = rehashed st b h) := by
  cases c with
  | Register =>
    simp only [storeAfter]
    rcases Register_cases D e st r with h1 | ⟨form, baid, hash, -, -, -, -, -, -, hU, -, -, hR⟩
    · exact Or.inl h1.1
    · have hfree := IsAuthUserUnique_true _ _ _ _ _ _ hU
      exact Or.inr (Or.inl ⟨trivial, _, hfree.2.2.2.1, hfree.2.2.2.2, by rw [hR]⟩)
  | Login => exact Or.inl rfl
  | Session => exact Or.inl rfl
  | Logout => exact Or.inl rfl
  | ChangeUsername =>
    simp only [storeAfter]
    rcases ChangeUsername_store D e st r with h1 | ⟨b, n, hn, h1⟩
    · exact Or.inl h1
    · exact Or.inr (Or.inr (Or.inl ⟨trivial, b, n, hn, h1⟩))
  | ChangePassword =>
    simp only [storeAfter]
    rcases ChangePassword_store D e st r with h1 | ⟨b, hash, h1⟩
    · exact Or.inl h1
    · exact Or.inr (Or.inr (Or.inr ⟨trivial, b, hash, h1⟩))

/-- No call changes what the access codes resolve to. -/
theorem storeAfter_accessCodes (D : Deps) (e : Env) (c : Call) (st : Store) (r : Request) :
    (storeAfter D e c st r).accessCodes = st.accessCodes := by
  rcases storeAfter_cases D e c st r with h | ⟨-, row, -, -, h⟩ | ⟨-, b, n, -, h⟩ | ⟨-, b, x, h⟩ <;>
    rw [h] <;> rfl

/-- No call unlinks a baid. -/
theorem storeAfter_baid (D : Deps) (e : Env) (c : Call) (st : Store) (r : Request) (b : Nat)
    (hb : ∃ u ∈ st.users, u.Baid = b) : ∃ u ∈ (storeAfter D e c st r).users, u.Baid = b := by
  obtain ⟨u, hu, hub⟩ := hb
  rcases storeAfter_cases D e c st r with h | ⟨-, row, -, -, h⟩ | ⟨-, b2, n, -, h⟩ | ⟨-, b2, x, h⟩ <;>
    rw [h]
  · exact ⟨u, hu, hub⟩
  · exact ⟨u, by simp [inserted, hu], hub⟩
  · refine ⟨if u.Baid = b2 then { u with Username := n } else u, ?_, ?_⟩
    · simp only [renamed, List.mem_map]
      exact ⟨u, hu, rfl⟩
    · split_ifs <;> exact hub
  · refine ⟨if u.Baid = b2 then { u with PasswordHash := x } else u, ?_, ?_⟩
    · simp only [rehashed, List.mem_map]
      exact ⟨u, hu, rfl⟩
    · split_ifs <;> exact hub

/-- A call that is not ChangeUsername leaves every held username held. -/
theorem storeAfter_username (D : Deps) (e : Env) (c : Call) (st : Store) (r : Request)
    (n : String) (hc : c ≠ Call.ChangeUsername) (hn : ∃ u ∈ st.users, u.Username = n) :
    ∃ u ∈ (storeAfter D e c st r).users, u.Username = n := by
  obtain ⟨u, hu, hun⟩ := hn
  rcases storeAfter_cases D e c st r with h | ⟨-, row, -, -, h⟩ | ⟨hc2, -⟩ | ⟨-, b2, x, h⟩
  · rw [h]; exact ⟨u, hu, hun⟩
  · rw [h]; exact ⟨u, by simp [inserted, hu], hun⟩
  · exact absurd hc2 hc
  · rw [h]
    refine ⟨if u.Baid = b2 then { u with PasswordHash := x } else u, ?_, ?_⟩
    · simp only [rehashed, List.mem_map]
      exact ⟨u, hu, rfl⟩
    · split_ifs <;> exact hun

/-- A call that is neither ChangeUsername nor ChangePassword leaves the row found under a
username as it is. -/
theorem storeAfter_find (D : Deps) (e : Env) (c : Call) (st : Store) (r : Request)
    (n : String) (row : AuthUser)
    (hc : c ≠ Call.ChangeUsername) (hc2 : c ≠ Call.ChangePassword)
    (hfind : st.users.find? (fun u => decide (u.Username = n)) = some row) :
    (storeAfter D e c st r).users.find? (fun u => decide (u.Username = n)) = some row := by
  rcases storeAfter_cases D e c st r with h | ⟨-, row2, -, -, h⟩ | ⟨h1, -⟩ | ⟨h1, -⟩
  · rw [h]; exact hfind
  · rw [h]
    simp [inserted, List.find?_append, hfind]
  · exact absurd h1 hc
  · exact absurd h1 hc2

theorem storeAfterAll_accessCodes (D : Deps) (calls : List (Env × Call × Request)) (st : Store) :
    (storeAfterAll D calls st).accessCodes = st.accessCodes := by
  induction calls generalizing st with
  | nil => rfl
  | cons x rest ih =>
    simp only [storeAfterAll]
    rw [ih, storeAfter_accessCodes]

theorem storeAfterAll_baid (D : Deps) (calls : List (Env × Call × Request)) (st : Store)
    (b : Nat) (hb : ∃ u ∈ st.users, u.Baid = b) :
    ∃ u ∈ (storeAfterAll D calls st).users, u.Baid = b := by
  induction calls generalizing st with
  | nil => exact hb
  | cons x rest ih =>
    simp only [storeAfterAll]
    exact ih _ (storeAfter_baid D _ _ st _ b hb)

theorem storeAfterAll_username (D : Deps) (calls : List (Env × Call × Request)) (st : Store)
    (n : String) (hc : ∀ x ∈ calls, x.2.1 ≠ Call.ChangeUsername)
    (hn : ∃ u ∈ st.users, u.Username = n) :
    ∃ u ∈ (storeAfterAll D calls st).users, u.Username = n := by
  induction calls generalizing st with
  | nil => exact hn
  | cons x rest ih =>
    simp only [storeAfterAll]
    exact ih _ (fun y hy => hc y (List.mem_cons_of_mem _ hy))
      (storeAfter_username D _ _ st _ n (hc x (List.mem_cons_self _ _)) hn)

theorem storeAfterAll_find (D : Deps) (calls : List (Env × Call × Request)) (st : Store)
    (n : String) (row : AuthUser)
    (hc : ∀ x ∈ calls, x.2.1 ≠ Call.ChangeUsername ∧ x.2.1 ≠ Call.ChangePassword)
    (hfind : st.users.find? (fun u => decide (u.Username = n)) = some row) :
    (storeAfterAll D calls st).users.find? (fun u => decide (u.Username = n)) = some row := by
  induction calls generalizing st with
  | nil => exact hfind
  | cons x rest ih =>
    simp only [storeAfterAll]
    exact ih _ (fun y hy => hc y (List.mem_cons_of_mem _ hy))
      (storeAfter_find D _ _ st _ n row (hc x (List.mem_cons_self _ _)).1
        (hc x (List.mem_cons_self _ _)).2 hfind)

/-- C10. ChangeUsername renames exactly the caller or changes nothing: for an authenticated
baid b and a submitted username n of 1 to 20 bytes, with the store answering without error,
the answer is 409 and the table is unchanged when another account holds n; when no account
holds n the answer is 200 and the table is the old one with the username of the row of baid
b replaced by n, every baid, every hash and every other row as before. -/
theorem ChangeUsername_renames_or_nothing (D : Deps) (e : Env) (st : Store) (r : Request)
    (b : Nat) (upd : UpdateAuthUser)
    (hauth : D.verifyClientBaid {} r = ({}, some b))
    (hbody : r.Body = some upd)
    (hlen : 1 ≤ upd.Username.utf8ByteSize ∧ upd.Username.utf8ByteSize ≤ 20)
    (hf1 : e.faults.GetAuthUserByUsername = false)
    (hf2 : e.faults.ChangeUsername = false) :
    ((∃ u ∈ st.users, u.Username = upd.Username ∧ u.Baid ≠ b) →
      AuthHandler.ChangeUsername D e st r =
        (httpError {} "Username already in use" StatusConflict, st) ∧
      (AuthHandler.ChangeUsername D e st r).1.code = 409) ∧
    ((∀ u ∈ st.users, u.Username ≠ upd.Username) →
      AuthHandler.ChangeUsername D e st r =
        ({ status := some 200, cookies := [], body := [] }, renamed st b upd.Username) ∧
      (AuthHandler.ChangeUsername D e st r).1.code = 200 ∧
      (∀ u ∈ st.users, u.Baid = b →
        { u with Username := upd.Username } ∈ (AuthHandler.ChangeUsername D e st r).2.users) ∧
      (∀ u ∈ st.users, u.Baid ≠ b → u ∈ (AuthHandler.ChangeUsername D e st r).2.users) ∧
      (AuthHandler.ChangeUsername D e st r).2.users.length = st.users.length) := by
  have hl : ¬ (upd.Username.utf8ByteSize < 1 ∨ upd.Username.utf8ByteSize > 20) := by omega
  constructor
  · rintro ⟨u, hu, hn, -⟩
    obtain ⟨row, -, -, hget⟩ := GetAuthUserByUsername_some e.faults st _ hf1 ⟨u, hu, hn⟩
    have hR : AuthHandler.ChangeUsername D e st r =
        (httpError {} "Username already in use" StatusConflict, st) := by
      unfold AuthHandler.ChangeUsername
      rw [hauth, hbody]
      simp only
      rw [if_neg hl, hget]
      simp
    exact ⟨hR, by rw [hR]; rfl⟩
  · intro hfree
    have hR : AuthHandler.ChangeUsername D e st r =
        ({ status := some 200, cookies := [], body := [] }, renamed st b upd.Username) := by
      unfold AuthHandler.ChangeUsername
      rw [hauth, hbody]
      simp only
      rw [if_neg hl, GetAuthUserByUsername_none e.faults st _ hf1 hfree]
      simp [database.ChangeUsername, hf2, renamed, WriteHeader_new, StatusOK]
    refine ⟨hR, by rw [hR]; rfl, ?_, ?_, ?_⟩
    · intro u hu hb
      rw [hR]
      simp only [renamed, List.mem_map]
      exact ⟨u, hu, by simp [hb]⟩
    · intro u hu hb
      rw [hR]
      simp only [renamed, List.mem_map]
      exact ⟨u, hu, by simp [hb]⟩
    · rw [hR]
      simp [renamed]

/-- The scenario of C10 on the table holding "drummer" (baid 42) and "taiko" (baid 43): the
caller on baid 42 asking for "taiko" gets 409 and nothing changes; asking for "donchan" gets
200 and the row of baid 42 is renamed. -/
theorem ChangeUsername_renames_or_nothing_witness :
    (AuthHandler.ChangeUsername demoDeps demoEnv twoStore
        { cookie := some "token",
          Body := some { Username := "taiko", CurrentPassword := "", NewPassword := "" } } =
      (httpError {} "Username already in use" StatusConflict, twoStore)) ∧
    (AuthHandler.ChangeUsername demoDeps demoEnv twoStore
        { cookie := some "token",
          Body := some { Username := "donchan", CurrentPassword := "", NewPassword := "" } } =
      ({ status := some 200, cookies := [], body := [] }, renamed twoStore 42 "donchan")) :=
  ⟨((ChangeUsername_renames_or_nothing demoDeps demoEnv twoStore
      { cookie := some "token",
        Body := some { Username := "taiko", CurrentPassword := "", NewPassword := "" } }
      42 { Username := "taiko", CurrentPassword := "", NewPassword := "" }
      (by decide) rfl (by decide) rfl rfl).1
      ⟨{ Username := "taiko", Baid := 43, PasswordHash := "donkatsu1" },
        by decide, by decide, by decide⟩).1,
   ((ChangeUsername_renames_or_nothing demoDeps demoEnv twoStore
      { cookie := some "token",
        Body := some { Username := "donchan", CurrentPassword := "", NewPassword := "" } }
      42 { Username := "donchan", CurrentPassword := "", NewPassword := "" }
      (by decide) rfl (by decide) rfl rfl).2 (by decide)).1⟩

theorem GetPasswordHashByBaid_of_mem (f : Faults) (st : Store) (row : AuthUser)
    (hf : f.GetPasswordHashByBaid = false) (hrow : row ∈ st.users)
    (hB : (st.users.map (fun u => u.Baid)).Nodup) :
    database.GetPasswordHashByBaid f st row.Baid = (row.PasswordHash, true, false) := by
  cases hfind : st.users.find? (fun u => decide (u.Baid = row.Baid)) with
  | none =>
    rw [List.find?_eq_none] at hfind
    have := hfind row hrow
    simp at this
  | some u =>
    have hu := List.mem_of_find?_eq_some hfind
    have hb : u.Baid = row.Baid := by simpa using List.find?_some hfind
    have : u = row := List.inj_on_of_nodup_map hB hu hrow hb
    subst this
    simp [database.GetPasswordHashByBaid, hf, hfind]

/-- C6. ChangePassword never changes a password without proof of the current one: when the
stored hash of the authenticated baid does not verify the submitted current password, the
answer is 401 and the table is unchanged, whatever the new password. -/
theorem ChangePassword_wrong_current (D : Deps) (e : Env) (st : Store) (r : Request)
    (b : Nat) (upd : UpdateAuthUser) (h : String)
    (hauth : D.verifyClientBaid {} r = ({}, some b))
    (hbody : r.Body = some upd)
    (hstored : database.GetPasswordHashByBaid e.faults st b = (h, true, false))
    (hbad : D.CompareHashAndPassword h upd.CurrentPassword = false) :
    AuthHandler.ChangePassword D e st r =
      (httpError {} "Password is incorrect" StatusUnauthorized, st) ∧
    (AuthHandler.ChangePassword D e st r).1.code = 401 ∧
    (AuthHandler.ChangePassword D e st r).2 = st := by
  have hR : AuthHandler.ChangePassword D e st r =
      (httpError {} "Password is incorrect" StatusUnauthorized, st) := by
    unfold AuthHandler.ChangePassword
    rw [hauth, hbody]
    simp [hstored, hbad]
  exact ⟨hR, by rw [hR]; rfl, by rw [hR]⟩

/-- A run of C6: the caller on baid 42, whose password is "sticks123", submits the current
password "wrongpass" and a new password of three bytes. -/
theorem ChangePassword_wrong_current_witness :
    AuthHandler.ChangePassword demoDeps demoEnv drummerStore
        { cookie := some "token",
          Body := some { Username := "", CurrentPassword := "wrongpass", NewPassword := "abc" } } =
      (httpError {} "Password is incorrect" StatusUnauthorized, drummerStore) ∧
    (AuthHandler.ChangePassword demoDeps demoEnv drummerStore
        { cookie := some "token",
          Body := some { Username := "", CurrentPassword := "wrongpass", NewPassword := "abc" } }
      ).1.code = 401 ∧
    (AuthHandler.ChangePassword demoDeps demoEnv drummerStore
        { cookie := some "token",
          Body := some { Username := "", CurrentPassword := "wrongpass", NewPassword := "abc" } }
      ).2 = drummerStore :=
  ChangePassword_wrong_current demoDeps demoEnv drummerStore
    { cookie := some "token",
      Body := some { Username := "", CurrentPassword := "wrongpass", NewPassword := "abc" } }
    42 { Username := "", CurrentPassword := "wrongpass", NewPassword := "abc" } "sticks123"
    (by decide) rfl (by decide) (by decide)

theorem GetAuthUserByUsername_of_mem (f : Faults) (st : Store) (row : AuthUser)
    (hf : f.GetAuthUserByUsername = false) (hrow : row ∈ st.users)
    (hU : (st.users.map (fun u => u.Username)).Nodup) :
    database.GetAuthUserByUsername f st row.Username = (row, true, false) := by
  obtain ⟨u, hu, hn, hget⟩ := GetAuthUserByUsername_some f st row.Username hf ⟨row, hrow, rfl⟩
  have : u = row := List.inj_on_of_nodup_map hU hu hrow hn
  subst this
  exact hget

/-- C7. ChangePassword replaces the credential: for the authenticated baid of an account
(u, h) of a table with unique usernames and baids, where h verifies the submitted current
password and the new password has 8 to 100 bytes, ChangePassword answers 200 and changes
only the hash of that account; afterwards Login(u, new password) answers 200 and
Login(u, old password) answers 401 when the two passwords differ. The store answers without
error, hashing and signing succeed, the new hash verifies the new password and no other,
and u and the old password are not empty. -/
theorem ChangePassword_replaces_credential (D : Deps) (e : Env) (st : Store) (r : Request)
    (row : AuthUser) (upd : UpdateAuthUser) (newHash : String)
    (huniq : Unique st) (hrow : row ∈ st.users)
    (hauth : D.verifyClientBaid {} r = ({}, some row.Baid))
    (hbody : r.Body = some upd)
    (hcur : D.CompareHashAndPassword row.PasswordHash upd.CurrentPassword = true)
    (hlen : 8 ≤ upd.NewPassword.utf8ByteSize ∧ upd.NewPassword.utf8ByteSize ≤ 100)
    (hf1 : e.faults.GetPasswordHashByBaid = false)
    (hf2 : e.faults.ChangePassword = false)
    (hgen : D.GenerateFromPassword e.rand upd.NewPassword = some newHash)
    (hnew : ∀ q, D.CompareHashAndPassword newHash q = true ↔ q = upd.NewPassword)
    (hname : row.Username ≠ "") (hold : upd.CurrentPassword ≠ "") :
    AuthHandler.ChangePassword D e st r =
      ({ status := some 200, cookies := [], body := [] }, rehashed st row.Baid newHash) ∧
    (AuthHandler.ChangePassword D e st r).1.code = 200 ∧
    { row with PasswordHash := newHash } ∈ (AuthHandler.ChangePassword D e st r).2.users ∧
    (∀ u ∈ st.users, u.Baid ≠ row.Baid → u ∈ (AuthHandler.ChangePassword D e st r).2.users) ∧
    (AuthHandler.ChangePassword D e st r).2.users.length = st.users.length ∧
    ∀ (e2 : Env) (r2 : Request) (f2 : String → String),
      r2.cookie = none → r2.Form = some f2 → f2 "username" = row.Username →
      e2.faults.GetAuthUserByUsername = false →
      (f2 "password" = upd.NewPassword →
        ∀ tok, D.SignedString row.Baid (e2.clock 0 + 30 * 24 * 3600) D.SessionSecret = some tok →
        AuthHandler.Login D e2 (AuthHandler.ChangePassword D e st r).2 r2 =
          { status := some 200, cookies := [loginCookie tok (e2.clock 1 + 30 * 24 * 3600)],
            body := [Chunk.json { Username := row.Username, Baid := row.Baid }] }) ∧
      (f2 "password" = upd.CurrentPassword → upd.CurrentPassword ≠ upd.NewPassword →
        AuthHandler.Login D e2 (AuthHandler.ChangePassword D e st r).2 r2 =
          httpError {} "Username or Password is incorrect" StatusUnauthorized) := by
  have hl : ¬ (upd.NewPassword.utf8ByteSize < 8 ∨ upd.NewPassword.utf8ByteSize > 100) := by
    omega
  have hnewne : upd.NewPassword ≠ "" := by
    intro h0
    rw [h0] at hlen
    have : ("" : String).utf8ByteSize = 0 := by decide
    omega
  have hR : AuthHandler.ChangePassword D e st r =
      ({ status := some 200, cookies := [], body := [] }, rehashed st row.Baid newHash) := by
    unfold AuthHandler.ChangePassword
    rw [hauth, hbody]
    simp only
    rw [GetPasswordHashByBaid_of_mem e.faults st row hf1 hrow huniq.2]
    simp only [Bool.false_or, Bool.not_true, hcur]
    rw [if_neg (by simp), if_neg (by simp), if_neg hl, hgen]
    simp [database.ChangePassword, hf2, rehashed, WriteHeader_new, StatusOK]
  have hmem : ({ row with PasswordHash := newHash } : AuthUser) ∈
      (rehashed st row.Baid newHash).users := by
    simp only [rehashed, List.mem_map]
    exact ⟨row, hrow, by simp⟩
  refine ⟨hR, by rw [hR]; rfl, by rw [hR]; exact hmem, ?_, by rw [hR]; simp [rehashed], ?_⟩
  · intro u hu hb
    rw [hR]
    simp only [rehashed, List.mem_map]
    exact ⟨u, hu, by simp [hb]⟩
  · intro e2 r2 f2 hc hF hu he
    rw [hR]
    simp only
    have hget := GetAuthUserByUsername_of_mem e2.faults (rehashed st row.Baid newHash)
      { row with PasswordHash := newHash } he hmem (Unique_rehashed st row.Baid newHash huniq).1
    simp only at hget
    rw [← hu] at hget hname
    constructor
    · intro hp tok htok
      exact Login_accepts D e2 _ r2 f2 { row with PasswordHash := newHash } tok hc hF hname
        (by rw [hp]; exact hnewne) (by rw [hget, hu]) (by rw [hp]; exact (hnew _).2 rfl) htok
    · intro hp hne
      refine Login_rejects D e2 _ r2 f2 { row with PasswordHash := newHash } true hc hF hname
        (by rw [hp]; exact hold) (by rw [hget, hu]) (Or.inr ?_)
      rw [hp]
      cases hv : D.CompareHashAndPassword newHash upd.CurrentPassword with
      | false => rfl
      | true => exact absurd ((hnew _).1 hv) hne

/-- The scenario of C7: ChangePassword(current "sticks123", new "bachi2024") for the caller
"drummer" on baid 42; then Login with the new password gets 200 and Login with the old one
gets 401. -/
theorem ChangePassword_replaces_credential_witness :
    AuthHandler.ChangePassword demoDeps demoEnv drummerStore
        { cookie := some "token",
          Body := some
            { Username := "", CurrentPassword := "sticks123", NewPassword := "bachi2024" } } =
      ({ status := some 200, cookies := [], body := [] }, rehashed drummerStore 42 "bachi2024") ∧
    AuthHandler.Login demoDeps demoEnv (rehashed drummerStore 42 "bachi2024")
        { Form := some (demoForm "drummer" "bachi2024" "") } =
      { status := some 200, cookies := [loginCookie "token" 1702592000],
        body := [Chunk.json { Username := "drummer", Baid := 42 }] } ∧
    AuthHandler.Login demoDeps demoEnv (rehashed drummerStore 42 "bachi2024")
        { Form := some (demoForm "drummer" "sticks123" "") } =
      httpError {} "Username or Password is incorrect" StatusUnauthorized := by
  have h := ChangePassword_replaces_credential demoDeps demoEnv drummerStore
    { cookie := some "token",
      Body := some { Username := "", CurrentPassword := "sticks123", NewPassword := "bachi2024" } }
    { Username := "drummer", Baid := 42, PasswordHash := "sticks123" }
    { Username := "", CurrentPassword := "sticks123", NewPassword := "bachi2024" } "bachi2024"
    (by unfold Unique; decide) (by decide) (by decide) rfl (by decide) (by decide) rfl rfl rfl
    (by intro q; simp [demoDeps, eq_comm]) (by decide) (by decide)
  obtain ⟨h1, -, -, -, -, h2⟩ := h
  rw [h1] at h2
  refine ⟨h1, ?_, ?_⟩
  · exact (h2 demoEnv { Form := some (demoForm "drummer" "bachi2024" "") }
      (demoForm "drummer" "bachi2024" "") rfl rfl (by decide) rfl).1 (by decide) "token" rfl
  · exact (h2 demoEnv { Form := some (demoForm "drummer" "sticks123" "") }
      (demoForm "drummer" "sticks123" "") rfl rfl (by decide) rfl).2 (by decide) (by decide)

/-! ## float64 -/

/-- An integer below 2^53 is a float64. -/
theorem float64OfNat_exact (n : Nat) (h : n < 2 ^ 53) : float64OfNat n = n := by
  unfold float64OfNat
  rw [if_pos h]

/-- At 2^53 + 1 the conversion loses the last bit. -/
theorem float64OfNat_inexact : float64OfNat (2 ^ 53 + 1) = 2 ^ 53 := by
  have h : Nat.log2 (2 ^ 53 + 1) = 53 := by
    rw [Nat.log2_eq_log_two]
    exact Nat.log_eq_of_pow_le_of_lt_pow (by norm_num) (by norm_num)
  simp only [float64OfNat, h]
  norm_num

theorem mathRound_natCast (n : Nat) : mathRound (n : ℚ) = n := by
  have h0 : (0 : ℚ) ≤ n := Nat.cast_nonneg n
  simp only [mathRound, h0, if_true]
  rw [Int.floor_eq_iff]
  constructor
  · push_cast; linarith
  · push_cast; linarith

/-- The bounds of float64(n) above 2^53: it is one of the two multiples of 2^e around n, for
e = log2 n - 52, and the quotient has 53 bits. -/
theorem float64OfNat_bounds (n : Nat) (h : 2 ^ 53 ≤ n) :
    n / 2 ^ (Nat.log2 n - 52) * 2 ^ (Nat.log2 n - 52) ≤ float64OfNat n ∧
    float64OfNat n ≤ (n / 2 ^ (Nat.log2 n - 52) + 1) * 2 ^ (Nat.log2 n - 52) ∧
    2 ^ Nat.log2 n ≤ n / 2 ^ (Nat.log2 n - 52) * 2 ^ (Nat.log2 n - 52) ∧
    (n / 2 ^ (Nat.log2 n - 52) + 1) * 2 ^ (Nat.log2 n - 52) ≤ 2 ^ (Nat.log2 n + 1) := by
  have hn0 : n ≠ 0 := by
    have : 0 < 2 ^ 53 := by norm_num
    omega
  have hk1 : 2 ^ Nat.log2 n ≤ n := Nat.log2_self_le hn0
  have hk2 : n < 2 ^ (Nat.log2 n + 1) := Nat.lt_log2_self
  have hk : 53 ≤ Nat.log2 n := by
    by_contra hlt
    have : Nat.log2 n + 1 ≤ 53 := by omega
    have := Nat.pow_le_pow_right (show 0 < 2 by norm_num) this
    omega
  obtain ⟨e, he⟩ : ∃ e, Nat.log2 n = e + 52 := ⟨Nat.log2 n - 52, by omega⟩
  have hE : 0 < 2 ^ e := Nat.pos_pow_of_pos _ (by norm_num)
  rw [he] at hk1 hk2 ⊢
  simp only [Nat.add_sub_cancel]
  have hpow1 : 2 ^ (e + 52) = 2 ^ 52 * 2 ^ e := by rw [pow_add, mul_comm]
  have hpow2 : 2 ^ (e + 52 + 1) = 2 ^ 53 * 2 ^ e := by
    rw [show e + 52 + 1 = e + 53 by omega, pow_add, mul_comm]
  have hq1 : 2 ^ 52 ≤ n / 2 ^ e := by
    rw [Nat.le_div_iff_mul_le hE]
    rw [hpow1] at hk1
    exact hk1
  have hq2 : n / 2 ^ e < 2 ^ 53 := by
    rw [Nat.div_lt_iff_lt_mul hE]
    rw [hpow2] at hk2
    exact hk2
  refine ⟨?_, ?_, ?_, ?_⟩
  · unfold float64OfNat
    rw [if_neg (by omega), he]
    simp only [Nat.add_sub_cancel]
    split_ifs <;> nlinarith
  · unfold float64OfNat
    rw [if_neg (by omega), he]
    simp only [Nat.add_sub_cancel]
    split_ifs <;> nlinarith
  · rw [hpow1]
    exact Nat.mul_le_mul_right _ hq1
  · rw [hpow2]
    exact Nat.mul_le_mul_right _ hq2

theorem log2_ge_53 (n : Nat) (h : 2 ^ 53 ≤ n) : 53 ≤ Nat.log2 n := by
  have hk2 : n < 2 ^ (Nat.log2 n + 1) := Nat.lt_log2_self
  by_contra hlt
  have : Nat.log2 n + 1 ≤ 53 := by omega
  have := Nat.pow_le_pow_right (show 0 < 2 by norm_num) this
  omega

/-- The rounding step of float64OfNat is monotone in the remainder. -/
theorem round_step_mono (E P q rn rm : Nat) (h : rn ≤ rm) :
    (if 2 * rn < E then P else if E < 2 * rn then P + E else if q % 2 = 0 then P else P + E) ≤
    (if 2 * rm < E then P else if E < 2 * rm then P + E else if q % 2 = 0 then P else P + E) := by
  split_ifs <;> omega

/-- The conversion to float64 is monotone. -/
theorem float64OfNat_mono (n m : Nat) (h : n ≤ m) : float64OfNat n ≤ float64OfNat m := by
  by_cases hm : m < 2 ^ 53
  · rw [float64OfNat_exact m hm, float64OfNat_exact n (by omega)]
    exact h
  have hm2 : 2 ^ 53 ≤ m := by omega
  obtain ⟨bm1, -, bm3, -⟩ := float64OfNat_bounds m hm2
  have hkm := log2_ge_53 m hm2
  by_cases hn : n < 2 ^ 53
  · rw [float64OfNat_exact n hn]
    have := Nat.pow_le_pow_right (show 0 < 2 by norm_num) hkm
    omega
  have hn2 : 2 ^ 53 ≤ n := by omega
  obtain ⟨-, bn2, -, bn4⟩ := float64OfNat_bounds n hn2
  have hmono : Nat.log2 n ≤ Nat.log2 m := by
    rw [Nat.log2_eq_log_two, Nat.log2_eq_log_two]
    exact Nat.log_mono_right h
  rcases Nat.lt_or_eq_of_le hmono with hlt | heq
  · have := Nat.pow_le_pow_right (show 0 < 2 by norm_num) (show Nat.log2 n + 1 ≤ Nat.log2 m from hlt)
    omega
  · rw [heq] at bn2
    have hE : 0 < 2 ^ (Nat.log2 m - 52) := Nat.pos_pow_of_pos _ (by norm_num)
    have hq : n / 2 ^ (Nat.log2 m - 52) ≤ m / 2 ^ (Nat.log2 m - 52) := Nat.div_le_div_right h
    rcases Nat.lt_or_eq_of_le hq with hqlt | hqeq
    · have := Nat.mul_le_mul_right (2 ^ (Nat.log2 m - 52))
        (show n / 2 ^ (Nat.log2 m - 52) + 1 ≤ m / 2 ^ (Nat.log2 m - 52) from hqlt)
      omega
    · have hr : n % 2 ^ (Nat.log2 m - 52) ≤ m % 2 ^ (Nat.log2 m - 52) := by
        have h1 := Nat.div_add_mod n (2 ^ (Nat.log2 m - 52))
        have h2 := Nat.div_add_mod m (2 ^ (Nat.log2 m - 52))
        rw [hqeq] at h1
        omega
      unfold float64OfNat
      rw [if_neg hn, if_neg hm, heq]
      simp only [hqeq, Nat.add_mul, Nat.one_mul]
      exact round_step_mono _ _ _ _ _ hr

theorem float64OfInt_mono (i j : Int) (h : i ≤ j) : float64OfInt i ≤ float64OfInt j := by
  unfold float64OfInt
  by_cases hi : 0 ≤ i
  · have hj : 0 ≤ j := le_trans hi h
    rw [if_pos hi, if_pos hj]
    exact_mod_cast float64OfNat_mono _ _ (Int.toNat_le_toNat h)
  · rw [if_neg hi]
    by_cases hj : 0 ≤ j
    · rw [if_pos hj]
      have h1 : (0 : ℚ) ≤ ((float64OfNat (-i).toNat : Nat) : ℚ) := Nat.cast_nonneg _
      have h2 : (0 : ℚ) ≤ ((float64OfNat j.toNat : Nat) : ℚ) := Nat.cast_nonneg _
      linarith
    · rw [if_neg hj]
      have : ((float64OfNat (-j).toNat : Nat) : ℚ) ≤ ((float64OfNat (-i).toNat : Nat) : ℚ) := by
        exact_mod_cast float64OfNat_mono _ _ (Int.toNat_le_toNat (by omega))
      linarith

/-! ## Session -/

theorem GetUsernameByBaid_of_mem (f : Faults) (st : Store) (row : AuthUser)
    (hf : f.GetUsernameByBaid = false) (hrow : row ∈ st.users)
    (hB : (st.users.map (fun u => u.Baid)).Nodup) :
    database.GetUsernameByBaid f st row.Baid = (row.Username, true, false) := by
  cases hfind : st.users.find? (fun u => decide (u.Baid = row.Baid)) with
  | none =>
    rw [List.find?_eq_none] at hfind
    have := hfind row hrow
    simp at this
  | some u =>
    have hu := List.mem_of_find?_eq_some hfind
    have hb : u.Baid = row.Baid := by simpa using List.find?_some hfind
    have : u = row := List.inj_on_of_nodup_map hB hu hrow hb
    subst this
    simp [database.GetUsernameByBaid, hf, hfind]

/-- The conversion uint(math.Round(float64(b))) gives b back for b below 2^53. -/
theorem uint_round_float64 (D : Deps) (b : Nat) (hb : b < 2 ^ 53) :
    uint D (mathRound ((float64OfNat b : Nat) : ℚ)) = b := by
  rw [float64OfNat_exact b hb, mathRound_natCast]
  unfold uint
  have h1 : (0 : Int) ≤ (b : Int) := Int.natCast_nonneg b
  have h2 : (b : Int) < 2 ^ 64 := by
    have : b < 2 ^ 64 := lt_trans hb (by norm_num)
    exact_mod_cast this
  rw [if_pos ⟨h1, h2⟩]
  simp

/-- Session on a cookie that parses to valid claims with a past exp: the 401 is written, and
the handler goes on to the lookup; with an account for the baid the JSON body follows the
error message, without one a second error message does. -/
theorem Session_expired (D : Deps) (e : Env) (st : Store) (r : Request) (value : String)
    (sub exp : ℚ) (hcookie : r.cookie = some value)
    (hparse : D.Parse value (AuthHandler.keyFunc D) (e.clock 0) =
      some { Claims := some { sub := some sub, exp := some exp }, Valid := true })
    (hexp : float64OfInt (e.clock 1) > exp) :
    AuthHandler.Session D e st r =
      some (if (database.GetUsernameByBaid e.faults st (uint D (mathRound sub))).2.1 then
        { status := some 401, cookies := [],
          body := [Chunk.text "Unauthorized",
            Chunk.json { Username := (database.GetUsernameByBaid e.faults st
                (uint D (mathRound sub))).1, Baid := uint D (mathRound sub) }] }
      else
        { status := some 401, cookies := [],
          body := [Chunk.text "Unauthorized", Chunk.text "Unauthorized"] }) := by
  unfold AuthHandler.Session
  rw [hcookie]
  simp only [hparse]
  rw [if_pos hexp]
  cases hfound : (database.GetUsernameByBaid e.faults st (uint D (mathRound sub))).2.1 <;>
    simp [hfound, httpError, jsonEncode, ResponseWriter.Write, ResponseWriter.WriteHeader,
      StatusUnauthorized, StatusOK, StatusInternalServerError]

/-- C5. Session does not reject every expired token: for the cookie "stale", which parses as a
correctly signed token with the claims sub 42 and exp 0, at clock reading 1700000000 and with
an account for baid 42, Session writes the status 401 and the message "Unauthorized" and
then, having not returned, the JSON body of the account. -/
theorem Session_expired_token_writes_json :
    demoDeps.Parse "stale" (AuthHandler.keyFunc demoDeps) (demoEnv.clock 0) =
      some { Claims := some { sub := some 42, exp := some 0 }, Valid := true } ∧
    float64OfInt (demoEnv.clock 1) > 0 ∧
    AuthHandler.Session demoDeps demoEnv drummerStore { cookie := some "stale" } =
      some { status := some 401, cookies := [],
             body := [Chunk.text "Unauthorized",
                      Chunk.json { Username := "drummer", Baid := 42 }] } := by
  have hparse : demoDeps.Parse "stale" (AuthHandler.keyFunc demoDeps) (demoEnv.clock 0) =
      some { Claims := some { sub := some 42, exp := some 0 }, Valid := true } := by
    simp [demoDeps]
  have hexp : float64OfInt (demoEnv.clock 1) > 0 := by decide
  refine ⟨hparse, hexp, ?_⟩
  rw [Session_expired demoDeps demoEnv drummerStore { cookie := some "stale" } "stale" 42 0 rfl
    hparse hexp]
  have hr : uint demoDeps (mathRound (42 : ℚ)) = 42 := by
    have := uint_round_float64 demoDeps 42 (by norm_num)
    rw [float64OfNat_exact 42 (by norm_num)] at this
    exact_mod_cast this
  rw [hr]
  decide

/-- C4. Session reads back what Login issued: when Login answered 200 for the account (u, b)
with b below 2^53 and set the cookie c, a Session carrying the value of c, no later than the
expiry Login wrote and on a table that still holds the account (u, b), gets the baid b back
through uint(round(float64)) and answers 200 with the JSON body Login returned. The token
parses to the claims Login signed, as float64, baids are unique in the table and the lookup
answers without error. -/
theorem Session_reads_back_Login (D : Deps) (e1 e2 : Env) (st st2 : Store) (r1 r2 : Request)
    (u : String) (b : Nat) (c : Cookie)
    (hlogin : AuthHandler.Login D e1 st r1 =
      { status := some 200, cookies := [c], body := [Chunk.json { Username := u, Baid := b }] })
    (hb : b < 2 ^ 53)
    (huniq : Unique st2)
    (hacc : ∃ row ∈ st2.users, row.Username = u ∧ row.Baid = b)
    (hcookie : r2.cookie = some c.Value)
    (hparse : D.Parse c.Value (AuthHandler.keyFunc D) (e2.clock 0) =
      some { Claims := some { sub := some ((float64OfNat b : Nat) : ℚ),
                              exp := some (float64OfInt (e1.clock 0 + 30 * 24 * 3600)) },
             Valid := true })
    (hlive : e2.clock 1 ≤ e1.clock 0 + 30 * 24 * 3600)
    (hf : e2.faults.GetUsernameByBaid = false) :
    uint D (mathRound ((float64OfNat b : Nat) : ℚ)) = b ∧
    AuthHandler.Session D e2 st2 r2 =
      some { status := some 200, cookies := [],
             body := [Chunk.json { Username := u, Baid := b }] } ∧
    ∃ w, AuthHandler.Session D e2 st2 r2 = some w ∧ w.code = 200 ∧
      w.body = (AuthHandler.Login D e1 st r1).body := by
  have hround := uint_round_float64 D b hb
  obtain ⟨row, hrow, hu, hbb⟩ := hacc
  have hlook := GetUsernameByBaid_of_mem e2.faults st2 row hf hrow huniq.2
  rw [hu, hbb] at hlook
  have hnot : ¬ float64OfInt (e2.clock 1) > float64OfInt (e1.clock 0 + 30 * 24 * 3600) :=
    not_lt.mpr (float64OfInt_mono _ _ hlive)
  have hS : AuthHandler.Session D e2 st2 r2 =
      some { status := some 200, cookies := [],
             body := [Chunk.json { Username := u, Baid := b }] } := by
    unfold AuthHandler.Session
    rw [hcookie]
    simp only [hparse]
    rw [if_neg hnot, hround, hlook]
    simp [jsonEncode, ResponseWriter.Write, ResponseWriter.WriteHeader, StatusOK]
  exact ⟨hround, hS, _, hS, rfl, by rw [hlogin]⟩

/-- The scenario of C4: Login("drummer", "sticks123") at 1700000000, then Session with the
cookie it set, after the account "taiko" has been added. -/
theorem Session_reads_back_Login_witness :
    uint demoDeps (mathRound ((float64OfNat 42 : Nat) : ℚ)) = 42 ∧
    AuthHandler.Session demoDeps demoEnv twoStore { cookie := some "token" } =
      some { status := some 200, cookies := [],
             body := [Chunk.json { Username := "drummer", Baid := 42 }] } ∧
    ∃ w, AuthHandler.Session demoDeps demoEnv twoStore { cookie := some "token" } = some w ∧
      w.code = 200 ∧
      w.body = (AuthHandler.Login demoDeps demoEnv drummerStore
        { Form := some (demoForm "drummer" "sticks123" "") }).body :=
  Session_reads_back_Login demoDeps demoEnv demoEnv drummerStore twoStore
    { Form := some (demoForm "drummer" "sticks123" "") } { cookie := some "token" }
    "drummer" 42 (loginCookie "token" 1702592000)
    (by decide) (by norm_num) (by unfold Unique; decide)
    ⟨{ Username := "drummer", Baid := 42, PasswordHash := "sticks123" },
      by decide, rfl, rfl⟩
    rfl
    (by
      have h1 : float64OfNat 42 = 42 := float64OfNat_exact 42 (by norm_num)
      have h2 : float64OfInt (demoEnv.clock 0 + 30 * 24 * 3600) = 1702592000 := by
        have h3 : demoEnv.clock 0 + 30 * 24 * 3600 = 1702592000 := by decide
        rw [h3]
        unfold float64OfInt
        rw [if_pos (by norm_num)]
        have h4 : (1702592000 : Int).toNat = 1702592000 := by decide
        rw [h4, float64OfNat_exact 1702592000 (by norm_num)]
        norm_num
      rw [h1, h2]
      simp [demoDeps, loginCookie])
    (by decide) rfl

/-! ## Register, then later calls -/

/-- C1. Register followed by Login succeeds: when Register(u, p, c) answers 200, then after any
calls that are neither ChangeUsername nor ChangePassword a Login(u, p) that carries no
Authorization cookie answers 200 with the JSON body (u, b), b the baid that c resolves to,
and sets the Authorization cookie holding the signed token; the store answers the lookup
without error, the hash made of p verifies p, and signing succeeds. -/
theorem Register_then_Login (D : Deps) (e1 e2 : Env) (st : Store) (r1 r2 : Request)
    (f1 f2 : String → String) (calls : List (Env × Call × Request))
    (hreg : (AuthHandler.Register D e1 st r1).1.code = 200)
    (hf1 : r1.Form = some f1)
    (hcalls : ∀ x ∈ calls, x.2.1 ≠ Call.ChangeUsername ∧ x.2.1 ≠ Call.ChangePassword)
    (hc : r2.cookie = none) (hf2 : r2.Form = some f2)
    (hu : f2 "username" = f1 "username") (hp : f2 "password" = f1 "password")
    (he : e2.faults.GetAuthUserByUsername = false)
    (hver : ∀ h, D.GenerateFromPassword e1.rand (f1 "password") = some h →
      D.CompareHashAndPassword h (f1 "password") = true)
    (hsign : ∀ b, (D.SignedString b (e2.clock 0 + 30 * 24 * 3600) D.SessionSecret).isSome) :
    ∃ b tok,
      database.GetBaidFromAccessCode e1.faults st (f1 "accessCode") = (b, true, false) ∧
      D.SignedString b (e2.clock 0 + 30 * 24 * 3600) D.SessionSecret = some tok ∧
      AuthHandler.Login D e2 (storeAfterAll D calls (AuthHandler.Register D e1 st r1).2) r2 =
        { status := some 200, cookies := [loginCookie tok (e2.clock 1 + 30 * 24 * 3600)],
          body := [Chunk.json { Username := f1 "username", Baid := b }] } ∧
      (AuthHandler.Login D e2 (storeAfterAll D calls (AuthHandler.Register D e1 st r1).2) r2).code
        = 200 := by
  obtain ⟨form, baid, hash, hF, hne, hpne, -, -, hG, hU, hH, -, hR⟩ :=
    Register_ok D e1 st r1 hreg
  rw [hf1] at hF
  cases hF
  obtain ⟨tok, htok⟩ := Option.isSome_iff_exists.mp (hsign baid)
  have hfree := (IsAuthUserUnique_true _ _ _ _ _ _ hU).2.2.2.1
  rw [hR]
  simp only
  have hnone : st.users.find? (fun u => decide (u.Username = f1 "username")) = none := by
    rw [List.find?_eq_none]
    intro u hu2
    simpa using hfree u hu2
  have hfind0 : (inserted st { Username := f1 "username", Baid := baid, PasswordHash := hash }
      ).users.find? (fun u => decide (u.Username = f1 "username")) =
      some { Username := f1 "username", Baid := baid, PasswordHash := hash } := by
    simp [inserted, List.find?_append, hnone]
  have hfind := storeAfterAll_find D calls _ _ _ hcalls hfind0
  have hget : database.GetAuthUserByUsername e2.faults
      (storeAfterAll D calls
        (inserted st { Username := f1 "username", Baid := baid, PasswordHash := hash }))
      (f2 "username") =
      ({ Username := f1 "username", Baid := baid, PasswordHash := hash }, true, false) := by
    rw [hu]
    simp [database.GetAuthUserByUsername, he, hfind]
  have hL := Login_accepts D e2 _ r2 f2 _ tok hc hf2 (by rw [hu]; exact hne)
    (by rw [hp]; exact hpne) hget (by rw [hp]; exact hver hash hH) htok
  exact ⟨baid, tok, hG, htok, hL, by rw [hL]; rfl⟩

/-- The scenario of C1: Register("drummer", "sticks123", "AC-001") with AC-001 resolving to
baid 42, then a Register of "taiko" on AC-002, then Login("drummer", "sticks123"). -/
theorem Register_then_Login_witness :
    ∃ b tok,
      database.GetBaidFromAccessCode demoEnv.faults emptyStore
        (demoForm "drummer" "sticks123" "AC-001" "accessCode") = (b, true, false) ∧
      demoDeps.SignedString b (demoEnv.clock 0 + 30 * 24 * 3600) demoDeps.SessionSecret
        = some tok ∧
      AuthHandler.Login demoDeps demoEnv
          (storeAfterAll demoDeps
            [(demoEnv, Call.Register, { Form := some (demoForm "taiko" "donkatsu1" "AC-002") })]
            (AuthHandler.Register demoDeps demoEnv emptyStore
              { Form := some (demoForm "drummer" "sticks123" "AC-001") }).2)
          { Form := some (demoForm "drummer" "sticks123" "") } =
        { status := some 200, cookies := [loginCookie tok (demoEnv.clock 1 + 30 * 24 * 3600)],
          body := [Chunk.json
            { Username := demoForm "drummer" "sticks123" "AC-001" "username", Baid := b }] } ∧
      (AuthHandler.Login demoDeps demoEnv
          (storeAfterAll demoDeps
            [(demoEnv, Call.Register, { Form := some (demoForm "taiko" "donkatsu1" "AC-002") })]
            (AuthHandler.Register demoDeps demoEnv emptyStore
              { Form := some (demoForm "drummer" "sticks123" "AC-001") }).2)
          { Form := some (demoForm "drummer" "sticks123" "") }).code = 200 :=
  Register_then_Login demoDeps demoEnv demoEnv emptyStore
    { Form := some (demoForm "drummer" "sticks123" "AC-001") }
    { Form := some (demoForm "drummer" "sticks123" "") }
    (demoForm "drummer" "sticks123" "AC-001") (demoForm "drummer" "sticks123" "")
    [(demoEnv, Call.Register, { Form := some (demoForm "taiko" "donkatsu1" "AC-002") })]
    (by decide) rfl (by simp) rfl rfl (by decide) (by decide) rfl
    (by intro h hh; simp [demoDeps] at hh; subst hh; simp [demoDeps])
    (by intro b; rfl)

/-- C9, as stated, fails once the account is renamed: Register("drummer", "sticks123",
"AC-001") answers 200; the caller on baid 42 then changes the username to "donchan"; a later
well-formed Register("drummer", "bachi2024", "AC-002"), whose access code resolves to baid
43, answers 200 and inserts a row, not 400 "Username already exists". -/
theorem Register_after_rename_accepted :
    (AuthHandler.Register demoDeps demoEnv emptyStore
      { Form := some (demoForm "drummer" "sticks123" "AC-001") }).1.code = 200 ∧
    database.GetBaidFromAccessCode demoEnv.faults
      (storeAfterAll demoDeps
        [(demoEnv, Call.ChangeUsername,
          { cookie := some "token",
            Body := some { Username := "donchan", CurrentPassword := "", NewPassword := "" } })]
        (AuthHandler.Register demoDeps demoEnv emptyStore
          { Form := some (demoForm "drummer" "sticks123" "AC-001") }).2)
      "AC-002" = (43, true, false) ∧
    AuthHandler.Register demoDeps demoEnv
      (storeAfterAll demoDeps
        [(demoEnv, Call.ChangeUsername,
          { cookie := some "token",
            Body := some { Username := "donchan", CurrentPassword := "", NewPassword := "" } })]
        (AuthHandler.Register demoDeps demoEnv emptyStore
          { Form := some (demoForm "drummer" "sticks123" "AC-001") }).2)
      { Form := some (demoForm "drummer" "bachi2024" "AC-002") } =
    ({ status := some 200, cookies := [], body := [] },
      { users := [{ Username := "donchan", Baid := 42, PasswordHash := "sticks123" },
                  { Username := "drummer", Baid := 43, PasswordHash := "bachi2024" }],
        accessCodes := [("AC-001", 42), ("AC-002", 43)] }) := by
  decide

/-- C9, amended. After a successful Register(u, p, c) and any later calls, a well-formed
Register whose store answers without error gets 400 "Username already exists" when it names
the same username u, its access code resolves to a baid and no ChangeUsername was called in
between, and 400 "Access code already linked" when it gives the same access code c and a
username that no account holds; the table is unchanged in both cases. -/
theorem Register_later_conflict (D : Deps) (e1 e2 : Env) (st : Store) (r1 r2 : Request)
    (f1 f2 : String → String) (calls : List (Env × Call × Request))
    (hreg : (AuthHandler.Register D e1 st r1).1.code = 200)
    (hf1 : r1.Form = some f1) (hf2 : r2.Form = some f2)
    (hun : f2 "username" ≠ "") (hpw : f2 "password" ≠ "") (hac : f2 "accessCode" ≠ "")
    (hlen : (f2 "username").utf8ByteSize ≤ 20)
    (hfa : e2.faults.GetBaidFromAccessCode = false)
    (hfu : e2.faults.IsAuthUserUnique = false) :
    (f2 "username" = f1 "username" →
      (∀ x ∈ calls, x.2.1 ≠ Call.ChangeUsername) →
      (∃ b, database.GetBaidFromAccessCode e2.faults
          (storeAfterAll D calls (AuthHandler.Register D e1 st r1).2)
          (f2 "accessCode") = (b, true, false)) →
      AuthHandler.Register D e2 (storeAfterAll D calls (AuthHandler.Register D e1 st r1).2) r2 =
        (httpError {} "Username already exists" StatusBadRequest,
          storeAfterAll D calls (AuthHandler.Register D e1 st r1).2)) ∧
    (f2 "accessCode" = f1 "accessCode" →
      (∀ u ∈ (storeAfterAll D calls (AuthHandler.Register D e1 st r1).2).users,
        u.Username ≠ f2 "username") →
      AuthHandler.Register D e2 (storeAfterAll D calls (AuthHandler.Register D e1 st r1).2) r2 =
        (httpError {} "Access code already linked" StatusBadRequest,
          storeAfterAll D calls (AuthHandler.Register D e1 st r1).2)) := by
  obtain ⟨form, baid, hash, hF, -, -, -, -, hG, -, -, -, hR⟩ := Register_ok D e1 st r1 hreg
  rw [hf1] at hF
  cases hF
  rw [hR]
  simp only
  have hrow : ({ Username := f1 "username", Baid := baid, PasswordHash := hash } : AuthUser) ∈
      (inserted st { Username := f1 "username", Baid := baid, PasswordHash := hash }).users := by
    simp [inserted]
  constructor
  · rintro hsame hcalls ⟨b, hb⟩
    refine Register_username_taken D e2 _ r2 f2 b hf2 hun hpw hac hlen hb hfu ?_
    rw [hsame]
    exact storeAfterAll_username D calls _ _ hcalls ⟨_, hrow, rfl⟩
  · intro hsame hfree
    have hb := GetBaidFromAccessCode_congr e1.faults e2.faults st
      (storeAfterAll D calls
        (inserted st { Username := f1 "username", Baid := baid, PasswordHash := hash }))
      (f1 "accessCode") baid hG hfa (by rw [storeAfterAll_accessCodes]; rfl)
    rw [← hsame] at hb
    exact Register_baid_taken D e2 _ r2 f2 baid hf2 hun hpw hac hlen hb hfu hfree
      (storeAfterAll_baid D calls _ baid ⟨_, hrow, rfl⟩)

/-- A run of the amended C9: after Register("drummer", "sticks123", "AC-001") and a change of
password, Register("drummer", ..., "AC-002") answers "Username already exists"; after the
same Register and a change of username to "donchan", Register("taiko", ..., "AC-001")
answers "Access code already linked". -/
theorem Register_later_conflict_witness :
    AuthHandler.Register demoDeps demoEnv (rehashed drummerStore 42 "bachi2024")
        { Form := some (demoForm "drummer" "donkatsu1" "AC-002") } =
      (httpError {} "Username already exists" StatusBadRequest,
        rehashed drummerStore 42 "bachi2024") ∧
    AuthHandler.Register demoDeps demoEnv (renamed drummerStore 42 "donchan")
        { Form := some (demoForm "taiko" "bachi2024" "AC-001") } =
      (httpError {} "Access code already linked" StatusBadRequest,
        renamed drummerStore 42 "donchan") := by
  have hst1 : rehashed drummerStore 42 "bachi2024" = storeAfterAll demoDeps
      [(demoEnv, Call.ChangePassword,
        { cookie := some "token",
          Body := some
            { Username := "", CurrentPassword := "sticks123", NewPassword := "bachi2024" } })]
      (AuthHandler.Register demoDeps demoEnv emptyStore
        { Form := some (demoForm "drummer" "sticks123" "AC-001") }).2 := by decide
  have hst2 : renamed drummerStore 42 "donchan" = storeAfterAll demoDeps
      [(demoEnv, Call.ChangeUsername,
        { cookie := some "token",
          Body := some { Username := "donchan", CurrentPassword := "", NewPassword := "" } })]
      (AuthHandler.Register demoDeps demoEnv emptyStore
        { Form := some (demoForm "drummer" "sticks123" "AC-001") }).2 := by decide
  constructor
  · rw [hst1]
    exact (Register_later_conflict demoDeps demoEnv demoEnv emptyStore
      { Form := some (demoForm "drummer" "sticks123" "AC-001") }
      { Form := some (demoForm "drummer" "donkatsu1" "AC-002") }
      (demoForm "drummer" "sticks123" "AC-001") (demoForm "drummer" "donkatsu1" "AC-002")
      _ (by decide) rfl rfl (by decide) (by decide) (by decide) (by decide) rfl rfl).1
      (by decide) (by simp) ⟨43, by decide⟩
  · rw [hst2]
    exact (Register_later_conflict demoDeps demoEnv demoEnv emptyStore
      { Form := some (demoForm "drummer" "sticks123" "AC-001") }
      { Form := some (demoForm "taiko" "bachi2024" "AC-001") }
      (demoForm "drummer" "sticks123" "AC-001") (demoForm "taiko" "bachi2024" "AC-001")
      _ (by decide) rfl rfl (by decide) (by decide) (by decide) (by decide) rfl rfl).2
      (by decide) (by decide)

end Taiko
